import Mathlib

/-!
Formal model of the directive parser in `src/parser.c` of the shader tool.

Modelling conventions:
* C strings (`ArStr`, a pointer plus a length) are `List Char`.
* The arkin substring primitive `ar_str_sub(s, start, end)` uses inclusive
  indices with `U32` arithmetic; every call site in `parser.c` passes
  `end = limit - 1`, so it is rendered here as the half-open span
  `spanText s start limit` (the `U32` wrap for `limit = 0` yields the empty
  string, which the half-open span reproduces).
* The arkin hash map (spec design note: "insert reports whether the key was
  new", "get returns a caller-supplied default on miss") is an association
  list with insert-if-absent semantics.
* Out-of-bounds reads and null-pointer dereferences in the C code are
  undefined behaviour; the model returns `none` at exactly those points.
* The diagnostic sink `ar_error` is modelled as a list of formatted
  messages accumulated in the parser state, in emission order.
* The `FileParser` stack in C is only ever accessed through its top element
  (the file currently being scanned), so the nested-include recursion keeps
  each file's cursor in its own stack frame of the model instead.
-/

namespace ShaderTool

/-- `ar_char_is_whitespace`: the C whitespace set (isspace-like). -/
def ar_char_is_whitespace (c : Char) : Bool :=
  c == ' ' || c == '\t' || c == '\n' || c == '\r' ||
  c == Char.ofNat 11 || c == Char.ofNat 12

/-- `ar_str_trim`: strip leading and trailing whitespace. -/
def ar_str_trim (s : List Char) : List Char :=
  ((s.dropWhile ar_char_is_whitespace).reverse.dropWhile ar_char_is_whitespace).reverse

/-- `ar_str_list_join`: concatenation of the list fragments, in order. -/
def ar_str_list_join (l : List (List Char)) : List Char := l.join

/-- The half-open span `[a, b)` of a buffer; renders `ar_str_sub s a (b-1)`. -/
def spanText (s : List Char) (a b : Nat) : List Char := (s.drop a).take (b - a)

/-- Association-list lookup for the arkin hash map (`ArStr` keys,
match by exact string equality, cf. `str_eq` in `parser.c`). -/
def hm_lookup {α : Type} : List (List Char × α) → List Char → Option α
  | [], _ => none
  | (k', v) :: t, k => if k' = k then some v else hm_lookup t k

/-- `ar_hash_map_insert`: insert-if-absent; returns whether the key was new
together with the updated map (a duplicate key leaves the map unchanged). -/
def ar_hash_map_insert {α : Type} (m : List (List Char × α)) (k : List Char)
    (v : α) : Bool × List (List Char × α) :=
  match hm_lookup m k with
  | some _ => (false, m)
  | none => (true, m ++ [(k, v)])

/-- `ar_hash_map_get`: lookup with the map's null value as default on miss. -/
def ar_hash_map_get {α : Type} (m : List (List Char × α)) (k : List Char)
    (nullv : α) : α :=
  (hm_lookup m k).getD nullv

/-- `ModuleType` from `parser.c`. -/
inductive ModuleType
  | MODULE_NONE
  | MODULE_MODULE
  | MODULE_VERT
  | MODULE_FRAG
deriving DecidableEq, Repr

/-- `Module` from `parser.c`: a body and a kind. -/
structure Module where
  code : List Char
  type : ModuleType
deriving DecidableEq, Repr

/-- `TokenType` from `parser.c`. -/
inductive TokenType
  | TOKEN_END
  | TOKEN_MODULE
  | TOKEN_VERT
  | TOKEN_FRAG
  | TOKEN_PROGRAM
  | TOKEN_INCLUDE
  | TOKEN_INCLUDE_MODULE
  | TOKEN_CTYPEDEF
  | TOKEN_ERROR
  | TOKEN_GLSL
deriving DecidableEq, Repr

/-- `Token` from `parser.c`; `args` holds the positional argument words
(the C arrays' unused slots are zeroed, i.e. empty strings). -/
structure Token where
  type : TokenType
  error : List Char := []
  args : List (List Char) := []
deriving DecidableEq, Repr

/-- Positional argument access, `token.args[n]` (missing slot = `{0}`). -/
def Token.arg (t : Token) (n : Nat) : List Char := t.args.getD n []

/-- The anonymous `program` struct inside `Parser`. -/
structure ProgramDef where
  name : List Char
  vert : Module
  frag : Module
deriving DecidableEq, Repr

/-- `Parser` from `parser.c`, minus the arena and the file-parser stack
(ownership bookkeeping with no observable effect on the parse result);
`errors` is the `ar_error` diagnostic sink. The C definedness test
`program.name.data != NULL` is rendered by `program : Option ProgramDef`. -/
structure Parser where
  current_module : ModuleType
  module_parts : List (List Char)
  module_map : List (List Char × Module)
  ctype_map : List (List Char × List Char)
  module_name : List Char
  program : Option ProgramDef
  errors : List (List Char)
deriving DecidableEq, Repr

/-- `FileParser` from `parser.c` (one per file being scanned). -/
structure FileParser where
  i : Nat
  token_start : Nat
  token_end : Nat
  last_token_end : Nat
deriving DecidableEq, Repr

/-- The file-system collaborator (spec section 6): a path maps to its byte
content when `fopen` succeeds, `none` when it cannot be opened.

Modelled from the spec: `read_file` lives in `src/utils.c`, which is absent
from `src/`; the spec's contract is "open for read, or report not-found" and
"read entire contents as bytes", so reading an unopenable (or null) path has
no defined result and is rendered as `none`. -/
structure FsEnv where
  content : List Char → Option (List Char)

/-- Modelled from the spec: `dirname` lives in `src/utils.c`, absent from
`src/`; the spec says only "given a path, return its containing directory"
(section 6). Its value never matters: the `push_front`/`pop` pair around it
cancels (spec section 9). -/
def dirnameModel (p : List Char) : List Char :=
  ((p.reverse.dropWhile (fun c => c != '/')).drop 1).reverse

/-- An environment with no openable files. -/
def emptyFs : FsEnv := ⟨fun _ => none⟩

/-- First word of `KEYWORDS` / `GLSL_KEYWORDS` matching, exactly as the two
lookup loops of `match_token_type` in `parser.c`. -/
def match_token_type (k : List Char) : TokenType :=
  if k = "end".data then .TOKEN_END
  else if k = "module".data then .TOKEN_MODULE
  else if k = "vert".data then .TOKEN_VERT
  else if k = "frag".data then .TOKEN_FRAG
  else if k = "program".data then .TOKEN_PROGRAM
  else if k = "include".data then .TOKEN_INCLUDE
  else if k = "include_module".data then .TOKEN_INCLUDE_MODULE
  else if k = "ctypedef".data then .TOKEN_CTYPEDEF
  else if k = "define".data then .TOKEN_GLSL
  else if k = "undef".data then .TOKEN_GLSL
  else if k = "if".data then .TOKEN_GLSL
  else if k = "ifdef".data then .TOKEN_GLSL
  else if k = "ifndef".data then .TOKEN_GLSL
  else if k = "else".data then .TOKEN_GLSL
  else if k = "elif".data then .TOKEN_GLSL
  else if k = "endif".data then .TOKEN_GLSL
  else if k = "error".data then .TOKEN_GLSL
  else if k = "pragma".data then .TOKEN_GLSL
  else if k = "extension".data then .TOKEN_GLSL
  else if k = "version".data then .TOKEN_GLSL
  else if k = "line".data then .TOKEN_GLSL
  else .TOKEN_ERROR

/-- `KEYWORD_ARG_COUNT` from `parser.c` (indexed by structural token kind;
the trailing cases are never consulted). -/
def keyword_arg_count : TokenType → Nat
  | .TOKEN_END => 0
  | .TOKEN_MODULE => 1
  | .TOKEN_VERT => 1
  | .TOKEN_FRAG => 1
  | .TOKEN_PROGRAM => 3
  | .TOKEN_INCLUDE => 1
  | .TOKEN_INCLUDE_MODULE => 1
  | .TOKEN_CTYPEDEF => 2
  | .TOKEN_ERROR => 0
  | .TOKEN_GLSL => 0

/-- `tokenize_statement_list` from `parser.c`. The C code reads
`statement_list.first->str` without a null check, so an empty word list is a
null-pointer dereference: `none`. -/
def tokenize_statement_list (words : List (List Char)) : Option Token :=
  match words with
  | [] => none
  | keyword :: rest =>
    let t := match_token_type keyword
    if t = TokenType.TOKEN_GLSL then some ⟨t, [], []⟩
    else if t = TokenType.TOKEN_ERROR then
      some ⟨t, keyword ++ ": Invalid token.".data, []⟩
    else if rest.length ≠ keyword_arg_count t then
      some ⟨TokenType.TOKEN_ERROR,
        keyword ++ ": Expected ".data ++ (Nat.repr (keyword_arg_count t)).data
          ++ " argument(s), got ".data ++ (Nat.repr rest.length).data ++ ".".data,
        []⟩
    else some ⟨t, [], rest⟩

/-- Advance to the next newline byte, i.e. `while (peek != '\n') i++;` in
`extract_statement` and the comment-skipping loop. Running past the end of
the buffer is an out-of-bounds read: `none`. -/
def scanToNewline (src : List Char) : Nat → Nat → Option Nat
  | 0, _ => none
  | fuel + 1, j =>
    match src[j]? with
    | none => none
    | some c => if c = '\n' then some j else scanToNewline src fuel (j + 1)

/-- `while (ar_char_is_whitespace(statement.data[i])) i++;` in
`split_statement`, on absolute buffer indices. -/
def skipWs (src : List Char) : Nat → Nat → Option Nat
  | 0, _ => none
  | fuel + 1, j =>
    match src[j]? with
    | none => none
    | some c => if ar_char_is_whitespace c then skipWs src fuel (j + 1) else some j

/-- `while (!ar_char_is_whitespace(statement.data[i])) i++;` in
`split_statement`, on absolute buffer indices. -/
def scanWordEnd (src : List Char) : Nat → Nat → Option Nat
  | 0, _ => none
  | fuel + 1, j =>
    match src[j]? with
    | none => none
    | some c => if ar_char_is_whitespace c then some j else scanWordEnd src fuel (j + 1)

/-- The loop of `split_statement`. The C loop bound `i < statement.len`
compares the relative cursor with the statement length; here `j` is the
absolute buffer index and `stmtEnd` the absolute statement end. The two
inner loops do not check the bound, so they may read past the statement
(into the bytes that follow it in the same buffer) and, past the buffer,
hit undefined behaviour (`none`). -/
def splitGo (src : List Char) (stmtEnd : Nat) : Nat → Nat → List (List Char) →
    Option (List (List Char))
  | fuel, j, acc =>
    if j < stmtEnd then
      match fuel with
      | 0 => none
      | fuel + 1 =>
        match skipWs src (src.length + 2) j with
        | none => none
        | some j1 =>
          match scanWordEnd src (src.length + 2) j1 with
          | none => none
          | some j2 => splitGo src stmtEnd fuel j2 (acc ++ [spanText src j1 j2])
    else some acc

/-- `split_statement` from `parser.c`: the statement is the buffer span
`[stmtStart, stmtStart + stmtLen)`. -/
def split_statement (src : List Char) (stmtStart stmtLen : Nat) :
    Option (List (List Char)) :=
  splitGo src (stmtStart + stmtLen) (stmtLen + 1) stmtStart []

/-- `add_module_part` from `parser.c`: append the pre-directive text span
`[last_token_end, token_start)` to the pending fragments, unless its length
is exactly 2 (the span-collapse rule). -/
def add_module_part (src : List Char) (cur : FileParser) (st : Parser) : Parser :=
  if cur.token_start - cur.last_token_end = 2 then st
  else
    {st with module_parts :=
      st.module_parts ++ [spanText src cur.last_token_end cur.token_start]}

/-- ASCII apostrophe (U+0027), used in two diagnostic texts. -/
def apos : Char := Char.ofNat 39

/-- `expand_token` from `parser.c`. `parseF` is the recursive `parse` call
used by `TOKEN_INCLUDE`; `cur` is the current file's cursor at the moment of
the call (`last_token_end` already saved, `token_end` not yet advanced).
After the switch, the pre-directive span is appended whenever a module is
open, exactly as the trailing `if` in the C function. -/
def expandTokenF (fs : FsEnv)
    (parseF : List Char → List (List Char) → Parser → Option Parser)
    (paths : List (List Char)) (tok : Token) (src : List Char)
    (cur : FileParser) (st : Parser) : Option Parser :=
  let core : Option Parser :=
    match tok.type with
    | .TOKEN_END =>
      if st.current_module = ModuleType.MODULE_NONE then
        some {st with errors := st.errors ++ ["Extranious end statment.".data]}
      else
        let stA := add_module_part src cur st
        let module : Module :=
          ⟨ar_str_trim (ar_str_list_join stA.module_parts), st.current_module⟩
        let ins := ar_hash_map_insert stA.module_map st.module_name module
        let errs2 :=
          if ins.1 then stA.errors
          else stA.errors ++
            [st.module_name ++ ": Module has already been defined.".data]
        let stB := {stA with module_map := ins.2, errors := errs2}
        some {stB with
          current_module := .MODULE_NONE
          module_name := []
          module_parts := []}
    | .TOKEN_MODULE =>
      if st.current_module ≠ ModuleType.MODULE_NONE then
        some {st with errors := st.errors ++
          [tok.arg 0 ++ ": New module started before ending the last module.".data]}
      else
        some {st with module_name := tok.arg 0, current_module := .MODULE_MODULE}
    | .TOKEN_VERT =>
      if st.current_module ≠ ModuleType.MODULE_NONE then
        some {st with errors := st.errors ++
          [tok.arg 0 ++
            ": New vertex module started before ending the last module.".data]}
      else
        some {st with module_name := tok.arg 0, current_module := .MODULE_VERT}
    | .TOKEN_FRAG =>
      if st.current_module ≠ ModuleType.MODULE_NONE then
        some {st with errors := st.errors ++
          [tok.arg 0 ++
            ": New fragment module started before ending the last module.".data]}
      else
        some {st with module_name := tok.arg 0, current_module := .MODULE_FRAG}
    | .TOKEN_PROGRAM =>
      let name := tok.arg 0
      let vkey := tok.arg 1
      let fkey := tok.arg 2
      if st.program.isSome then
        some {st with errors := st.errors ++
          [name ++ ": Program has already been defined.".data]}
      else
        let vm := ar_hash_map_get st.module_map vkey ⟨[], .MODULE_NONE⟩
        let fm := ar_hash_map_get st.module_map fkey ⟨[], .MODULE_NONE⟩
        let errs :=
          (if vm.type ≠ ModuleType.MODULE_VERT then
            [vkey ++ ": Vertex module not found.".data] else []) ++
          (if fm.type ≠ ModuleType.MODULE_FRAG then
            [fkey ++ ": Fragment module not found.".data] else [])
        if errs = [] then some {st with program := some ⟨name, vm, fm⟩}
        else some {st with errors := st.errors ++ errs}
    | .TOKEN_INCLUDE =>
      if paths = [] then
        some {st with errors := st.errors ++
          ["Cannot include files without providing search paths.".data]}
      else
        let fname := tok.arg 0
        match paths.find? (fun d => (fs.content (d ++ "/".data ++ fname)).isSome) with
        | none =>
          -- C reports "Couldn't find file <name>, in the provided paths." but
          -- does NOT break: it goes on to read_file/parse the null path, which
          -- has no defined behaviour.
          none
        | some d =>
          let path := d ++ "/".data ++ fname
          match fs.content path with
          | none => none
          | some text =>
            -- push_front the included file's directory, then immediately pop
            -- it again (spec section 9: the augmentation cancels).
            let paths2 := (dirnameModel path :: paths).drop 1
            parseF text paths2 st
    | .TOKEN_INCLUDE_MODULE =>
      -- The C code reads the map value reinterpreted as ArStr: the leading
      -- `code` field of `Module`; the miss sentinel is the null string.
      match hm_lookup st.module_map (tok.arg 0) with
      | none =>
        some {st with errors := st.errors ++
          [tok.arg 0 ++ (": Module couldn".data ++ [apos] ++ "t be found.".data)]}
      | some m =>
        some {st with module_parts := st.module_parts ++ [m.code]}
    | .TOKEN_CTYPEDEF =>
      some {st with ctype_map :=
        (ar_hash_map_insert st.ctype_map (tok.arg 0) (tok.arg 1)).2}
    | .TOKEN_ERROR =>
      some {st with errors := st.errors ++ [tok.error]}
    | .TOKEN_GLSL => some st
  match core with
  | none => none
  | some st1 =>
    some (if st1.current_module ≠ ModuleType.MODULE_NONE then
      add_module_part src cur st1 else st1)

/-- One pass of the `if (file_parser_peek(file_parser) == '#')` block in
`parse`: save `last_token_end`, record `token_start`, extract the statement,
split, tokenize, expand, record `token_end`, and append the literal
directive line (newline included) for a passthrough GLSL token. The
returned cursor includes the trailing `i++` of the loop body. -/
def directiveStep (fs : FsEnv)
    (parseF : List Char → List (List Char) → Parser → Option Parser)
    (paths : List (List Char)) (src : List Char) (cur : FileParser)
    (st : Parser) : Option (FileParser × Parser) :=
  let hashPos := cur.i
  match scanToNewline src (src.length + 1) (hashPos + 1) with
  | none => none
  | some j =>
    match split_statement src (hashPos + 1) (j - (hashPos + 1)) with
    | none => none
    | some words =>
      match tokenize_statement_list words with
      | none => none
      | some tok =>
        let curMid : FileParser :=
          ⟨j, hashPos, cur.token_end, cur.token_end⟩
        match expandTokenF fs parseF paths tok src curMid st with
        | none => none
        | some st1 =>
          let st2 :=
            if tok.type = TokenType.TOKEN_GLSL then
              {st1 with module_parts :=
                st1.module_parts ++ [spanText src hashPos (j + 1)]}
            else st1
          some (⟨j + 1, hashPos, j, cur.token_end⟩, st2)

/-- The scan loop of `parse` in `parser.c`, one fuel unit per iteration of
the C `while`. Reading `peek_next` past the buffer and the unterminated
line/comment loops are out-of-bounds reads (`none`); an exhausted fuel
represents a run longer than the supplied bound (the top-level entry point
supplies one fuel unit per source byte, which every terminating single-file
scan stays within, since the cursor advances every iteration). -/
def parseLoop (fs : FsEnv) (src : List Char) (paths : List (List Char)) :
    Nat → Nat → Nat → Nat → Nat → Parser → Option (FileParser × Parser)
  | fuel, i, ts, te, lte, st =>
    if i < src.length then
      match fuel with
      | 0 => none
      | fuel + 1 =>
        match src[i]? with
        | none => none
        | some c =>
          if c = '/' then
            match src[i + 1]? with
            | none => none
            | some c2 =>
              if c2 = '/' then
                match scanToNewline src (src.length + 1) i with
                | none => none
                | some j => parseLoop fs src paths fuel j ts te lte st
              else parseLoop fs src paths fuel (i + 1) ts te lte st
          else if c = '#' then
            match directiveStep fs
                (fun s2 p2 st2 =>
                  (parseLoop fs s2 p2 fuel 0 0 0 0 st2).map Prod.snd)
                paths src ⟨i, ts, te, lte⟩ st with
            | none => none
            | some (cur', st') =>
              parseLoop fs src paths fuel cur'.i cur'.token_start
                cur'.token_end cur'.last_token_end st'
          else parseLoop fs src paths fuel (i + 1) ts te lte st
    else some (⟨i, ts, te, lte⟩, st)

/-- `parse` from `parser.c`: push a fresh zeroed `FileParser`, run the scan
loop to the end of the buffer, pop. -/
def parse (fs : FsEnv) (fuel : Nat) (src : List Char)
    (paths : List (List Char)) (st : Parser) : Option Parser :=
  (parseLoop fs src paths fuel 0 0 0 0 st).map Prod.snd

/-- The zero-initialised `Parser` built in `parse_shader`. -/
def parser_init : Parser := ⟨.MODULE_NONE, [], [], [], [], none, []⟩

/-- The `program` part of `ParsedShader`.

Modelled from the spec: `ParsedShader` is declared in `src/internal.h`,
absent from `src/`; its fields are reconstructed from the initialiser in
`parse_shader` and the spec's Result description (section 3). -/
structure ParsedProgram where
  name : List Char
  vertex_source : List Char
  fragment_source : List Char
deriving DecidableEq, Repr

/-- Modelled from the spec: `ParsedShader` (see `ParsedProgram`): the final
program text plus the persistent type-alias table. -/
structure ParsedShader where
  program : ParsedProgram
  ctypes : List (List Char × List Char)
deriving DecidableEq, Repr

/-- `parse_shader` from `parser.c`: run the parse with one fuel unit per
byte (ample for any terminating include-free scan), then copy the program
name and the two module bodies into the persistent result. A copy of the
null string is the empty string. The second component is the diagnostic
sink's content. -/
def parse_shader (fs : FsEnv) (src : List Char) (paths : List (List Char)) :
    Option (ParsedShader × List (List Char)) :=
  match parse fs (src.length + 1) src paths parser_init with
  | none => none
  | some st =>
    let prog : ParsedProgram :=
      match st.program with
      | some p => ⟨p.name, p.vert.code, p.frag.code⟩
      | none => ⟨[], [], []⟩
    some (⟨prog, st.ctype_map⟩, st.errors)

/-! ## Scanner stepping lemmas

The claims quantify over source families (module names, body text); the
lemmas below step the scan loop symbolically: through a maximal directive-free
text region, and through one directive line. -/

/-- Single-spaced word list, as it appears in a directive statement. -/
def joinWords : List (List Char) → List Char
  | [] => []
  | [w] => w
  | w :: ws => w ++ ' ' :: joinWords ws

/-- A word of a well-formed statement: nonempty, no whitespace. -/
def goodWord (w : List Char) : Prop :=
  w ≠ [] ∧ ∀ c ∈ w, ar_char_is_whitespace c = false

theorem getElem?_at_append (pre : List Char) (c : Char) (rest : List Char) :
    (pre ++ c :: rest)[pre.length]? = some c := by
  rw [List.getElem?_append_right (Nat.le_refl _)]
  simp

theorem getElem?_shape (src pre : List Char) (c : Char) (rest : List Char)
    (j : Nat) (hsrc : src = pre ++ c :: rest) (hj : j = pre.length) :
    src[j]? = some c := by
  subst hsrc; subst hj; exact getElem?_at_append pre c rest

theorem spanText_at_append (pre mid rest : List Char) :
    spanText (pre ++ mid ++ rest) pre.length (pre.length + mid.length) = mid := by
  rw [spanText, List.append_assoc, List.drop_left, Nat.add_sub_cancel_left,
    List.take_left]

theorem spanText_shape (src pre mid rest : List Char) (a b : Nat)
    (hsrc : src = pre ++ mid ++ rest) (ha : a = pre.length)
    (hb : b = pre.length + mid.length) :
    spanText src a b = mid := by
  subst hsrc; subst ha; subst hb; exact spanText_at_append pre mid rest

theorem scanToNewline_step (src : List Char) (f j : Nat) (c : Char)
    (h : src[j]? = some c) :
    scanToNewline src (f + 1) j =
      if c = '\n' then some j else scanToNewline src f (j + 1) := by
  simp only [scanToNewline, h]

theorem skipWs_step (src : List Char) (f j : Nat) (c : Char)
    (h : src[j]? = some c) :
    skipWs src (f + 1) j =
      if ar_char_is_whitespace c then skipWs src f (j + 1) else some j := by
  simp only [skipWs, h]

theorem scanWordEnd_step (src : List Char) (f j : Nat) (c : Char)
    (h : src[j]? = some c) :
    scanWordEnd src (f + 1) j =
      if ar_char_is_whitespace c then some j else scanWordEnd src f (j + 1) := by
  simp only [scanWordEnd, h]

theorem scanToNewline_run (body : List Char) :
    ∀ (src pre rest : List Char) (fuel : Nat),
      src = pre ++ body ++ '\n' :: rest →
      (∀ c ∈ body, c ≠ '\n') → body.length + 1 ≤ fuel →
      scanToNewline src fuel pre.length = some (pre.length + body.length) := by
  induction body with
  | nil =>
    intro src pre rest fuel hsrc _ hf
    obtain ⟨f, rfl⟩ : ∃ f, fuel = f + 1 := ⟨fuel - 1, by omega⟩
    rw [scanToNewline_step src f pre.length '\n'
      (getElem?_shape src pre '\n' rest _ (by simpa using hsrc) rfl)]
    simp
  | cons c body ih =>
    intro src pre rest fuel hsrc hb hf
    obtain ⟨f, rfl⟩ : ∃ f, fuel = f + 1 := ⟨fuel - 1, by omega⟩
    have hc : c ≠ '\n' := hb c (by simp)
    rw [scanToNewline_step src f pre.length c
      (getElem?_shape src pre c (body ++ '\n' :: rest) _ (by simp [hsrc]) rfl),
      if_neg hc]
    have := ih src (pre ++ [c]) rest f (by simp [hsrc])
      (fun x hx => hb x (by simp [hx])) (by simp at hf ⊢; omega)
    simp only [List.length_append, List.length_cons, List.length_nil] at this ⊢
    rw [show pre.length + 1 = pre.length + 1 + 0 by omega] at this
    convert this using 2 <;> omega

theorem skipWs_run (run : List Char) :
    ∀ (src pre : List Char) (c : Char) (rest : List Char) (fuel : Nat),
      src = pre ++ run ++ c :: rest →
      (∀ x ∈ run, ar_char_is_whitespace x = true) →
      ar_char_is_whitespace c = false → run.length + 1 ≤ fuel →
      skipWs src fuel pre.length = some (pre.length + run.length) := by
  induction run with
  | nil =>
    intro src pre c rest fuel hsrc _ hc hf
    obtain ⟨f, rfl⟩ : ∃ f, fuel = f + 1 := ⟨fuel - 1, by omega⟩
    rw [skipWs_step src f pre.length c
      (getElem?_shape src pre c rest _ (by simpa using hsrc) rfl), hc]
    simp
  | cons x run ih =>
    intro src pre c rest fuel hsrc hr hc hf
    obtain ⟨f, rfl⟩ : ∃ f, fuel = f + 1 := ⟨fuel - 1, by omega⟩
    have hx : ar_char_is_whitespace x = true := hr x (by simp)
    rw [skipWs_step src f pre.length x
      (getElem?_shape src pre x (run ++ c :: rest) _ (by simp [hsrc]) rfl), hx]
    simp only [if_pos]
    have := ih src (pre ++ [x]) c rest f (by simp [hsrc])
      (fun y hy => hr y (by simp [hy])) hc (by simp at hf ⊢; omega)
    simp only [List.length_append, List.length_cons, List.length_nil] at this ⊢
    convert this using 2 <;> omega

theorem scanWordEnd_run (w : List Char) :
    ∀ (src pre : List Char) (c : Char) (rest : List Char) (fuel : Nat),
      src = pre ++ w ++ c :: rest →
      (∀ x ∈ w, ar_char_is_whitespace x = false) →
      ar_char_is_whitespace c = true → w.length + 1 ≤ fuel →
      scanWordEnd src fuel pre.length = some (pre.length + w.length) := by
  induction w with
  | nil =>
    intro src pre c rest fuel hsrc _ hc hf
    obtain ⟨f, rfl⟩ : ∃ f, fuel = f + 1 := ⟨fuel - 1, by omega⟩
    rw [scanWordEnd_step src f pre.length c
      (getElem?_shape src pre c rest _ (by simpa using hsrc) rfl), hc]
    simp
  | cons x w ih =>
    intro src pre c rest fuel hsrc hw hc hf
    obtain ⟨f, rfl⟩ : ∃ f, fuel = f + 1 := ⟨fuel - 1, by omega⟩
    have hx : ar_char_is_whitespace x = false := hw x (by simp)
    rw [scanWordEnd_step src f pre.length x
      (getElem?_shape src pre x (w ++ c :: rest) _ (by simp [hsrc]) rfl), hx]
    simp only [Bool.false_eq_true, if_neg]
    have := ih src (pre ++ [x]) c rest f (by simp [hsrc])
      (fun y hy => hw y (by simp [hy])) hc (by simp at hf ⊢; omega)
    simp only [List.length_append, List.length_cons, List.length_nil] at this ⊢
    convert this using 2 <;> omega

theorem words_le_joinWords (ws : List (List Char)) (h : ∀ w ∈ ws, w ≠ []) :
    ws.length ≤ (joinWords ws).length + 1 := by
  induction ws with
  | nil => simp
  | cons w ws' ih =>
    cases ws' with
    | nil => simp [joinWords]
    | cons w2 ws'' =>
      have hw : w ≠ [] := h w (by simp)
      have h1 : 1 ≤ w.length := List.length_pos.2 hw
      have := ih (fun x hx => h x (by simp [hx]))
      simp only [joinWords, List.length_append, List.length_cons] at this ⊢
      omega

theorem splitGo_exit (src : List Char) (stmtEnd fuel j : Nat)
    (acc : List (List Char)) (h : ¬ j < stmtEnd) :
    splitGo src stmtEnd fuel j acc = some acc := by
  cases fuel <;> simp only [splitGo, if_neg h]

theorem splitGo_words (ws : List (List Char)) :
    ∀ (src pre sep rest : List Char) (acc : List (List Char)) (fuel : Nat),
      src = pre ++ sep ++ joinWords ws ++ '\n' :: rest →
      (sep = [] ∨ sep = [' ']) →
      ws ≠ [] → (∀ w ∈ ws, goodWord w) → ws.length ≤ fuel →
      splitGo src (pre.length + sep.length + (joinWords ws).length) fuel
        pre.length acc = some (acc ++ ws) := by
  induction ws with
  | nil => intro _ _ _ _ _ _ _ _ h; exact absurd rfl h
  | cons w1 ws' ih =>
    intro src pre sep rest acc fuel hsrc hsep _ hgood hf
    obtain ⟨f, rfl⟩ : ∃ f, fuel = f + 1 :=
      ⟨fuel - 1, by simp only [List.length_cons] at hf; omega⟩
    obtain ⟨hw1ne, hw1⟩ := hgood w1 (by simp)
    obtain ⟨c1, w1', rfl⟩ : ∃ c1 w1', w1 = c1 :: w1' := by
      cases w1 with
      | nil => exact absurd rfl hw1ne
      | cons a b => exact ⟨a, b, rfl⟩
    have hsepws : ∀ x ∈ sep, ar_char_is_whitespace x = true := by
      rcases hsep with rfl | rfl
      · simp
      · intro x hx
        simp only [List.mem_singleton] at hx
        subst hx; decide
    have hc1 : ar_char_is_whitespace c1 = false := hw1 c1 (by simp)
    have hslen : sep.length + 1 ≤ src.length + 2 := by
      subst hsrc; simp; omega
    cases ws' with
    | nil =>
      have hlt : pre.length <
          pre.length + sep.length + (joinWords [c1 :: w1']).length := by
        simp [joinWords]; omega
      have hskip : skipWs src (src.length + 2) pre.length =
          some (pre.length + sep.length) :=
        skipWs_run sep src pre c1 (w1' ++ '\n' :: rest)
          (src.length + 2) (by simp [hsrc, joinWords]) hsepws hc1 hslen
      have hword : scanWordEnd src (src.length + 2) (pre.length + sep.length) =
          some (pre.length + sep.length + (c1 :: w1').length) := by
        have := scanWordEnd_run (c1 :: w1') src (pre ++ sep) '\n' rest
          (src.length + 2) (by simp [hsrc, joinWords]) hw1 (by decide)
          (by subst hsrc; simp [joinWords]; omega)
        simpa using this
      have hspan : spanText src (pre.length + sep.length)
          (pre.length + sep.length + (c1 :: w1').length) = c1 :: w1' :=
        spanText_shape src (pre ++ sep) (c1 :: w1') ('\n' :: rest) _ _
          (by simp [hsrc, joinWords]) (by simp) (by simp)
      simp only [splitGo, if_pos hlt, hskip, hword, hspan]
      have hexit : ¬ pre.length + sep.length + (c1 :: w1').length <
          pre.length + sep.length + (joinWords [c1 :: w1']).length := by
        simp [joinWords]
      rw [splitGo_exit src _ f _ _ hexit]
    | cons w2 ws'' =>
      have hjw : joinWords ((c1 :: w1') :: w2 :: ws'') =
          (c1 :: w1') ++ ' ' :: joinWords (w2 :: ws'') := rfl
      have hlt : pre.length <
          pre.length + sep.length + (joinWords ((c1 :: w1') :: w2 :: ws'')).length := by
        simp [hjw]; omega
      have hskip : skipWs src (src.length + 2) pre.length =
          some (pre.length + sep.length) :=
        skipWs_run sep src pre c1
          (w1' ++ ' ' :: joinWords (w2 :: ws'') ++ '\n' :: rest)
          (src.length + 2) (by simp [hsrc, hjw]) hsepws hc1 hslen
      have hword : scanWordEnd src (src.length + 2) (pre.length + sep.length) =
          some (pre.length + sep.length + (c1 :: w1').length) := by
        have := scanWordEnd_run (c1 :: w1') src (pre ++ sep) ' '
          (joinWords (w2 :: ws'') ++ '\n' :: rest)
          (src.length + 2) (by simp [hsrc, hjw]) hw1 (by decide)
          (by subst hsrc; simp [hjw]; omega)
        simpa using this
      have hspan : spanText src (pre.length + sep.length)
          (pre.length + sep.length + (c1 :: w1').length) = c1 :: w1' :=
        spanText_shape src (pre ++ sep) (c1 :: w1')
          (' ' :: joinWords (w2 :: ws'') ++ '\n' :: rest) _ _
          (by simp [hsrc, hjw]) (by simp) (by simp)
      simp only [splitGo, if_pos hlt, hskip, hword, hspan]
      have := ih src (pre ++ sep ++ (c1 :: w1')) [' '] rest (acc ++ [c1 :: w1'])
        f (by simp [hsrc, hjw]) (Or.inr rfl) (by simp)
        (fun x hx => hgood x (by simp [hx])) (by simp at hf ⊢; omega)
      simp only [List.length_append, List.length_cons, List.length_nil,
        List.append_assoc, List.cons_append, List.nil_append] at this ⊢
      rw [show pre.length + sep.length + (joinWords ((c1 :: w1') :: w2 :: ws'')).length
        = pre.length + (sep.length + (w1'.length + 1)) + (0 + 1) + (joinWords (w2 :: ws'')).length
        from by simp [hjw]; omega]
      rw [show pre.length + sep.length + (w1'.length + 1)
        = pre.length + (sep.length + (w1'.length + 1)) from by omega]
      exact this

theorem split_statement_words (src pre rest : List Char)
    (ws : List (List Char)) (hsrc : src = pre ++ joinWords ws ++ '\n' :: rest)
    (hne : ws ≠ []) (hgood : ∀ w ∈ ws, goodWord w) :
    split_statement src pre.length (joinWords ws).length = some ws := by
  have hfuel : ws.length ≤ (joinWords ws).length + 1 :=
    words_le_joinWords ws (fun w hw => (hgood w hw).1)
  have := splitGo_words ws src pre [] rest [] ((joinWords ws).length + 1)
    (by simpa using hsrc) (Or.inl rfl) hne hgood hfuel
  simpa [split_statement] using this

theorem parseLoop_exit (fs : FsEnv) (paths : List (List Char))
    (src : List Char) (fuel i ts te lte : Nat) (st : Parser)
    (h : ¬ i < src.length) :
    parseLoop fs src paths fuel i ts te lte st =
      some (⟨i, ts, te, lte⟩, st) := by
  cases fuel with
  | zero => simp only [parseLoop, if_neg h]
  | succ f => simp only [parseLoop, if_neg h]

theorem parseLoop_step_char (fs : FsEnv) (paths : List (List Char))
    (src : List Char) (fuel i ts te lte : Nat) (st : Parser) (c : Char)
    (hlt : i < src.length) (hc : src[i]? = some c)
    (h1 : c ≠ '/') (h2 : c ≠ '#') :
    parseLoop fs src paths (fuel + 1) i ts te lte st =
      parseLoop fs src paths fuel (i + 1) ts te lte st := by
  simp only [parseLoop, if_pos hlt, hc, if_neg h1, if_neg h2]

theorem parseLoop_run_plain (fs : FsEnv) (paths : List (List Char))
    (body : List Char) :
    ∀ (src pre rest : List Char) (fuel ts te lte : Nat) (st : Parser),
      src = pre ++ body ++ rest →
      (∀ c ∈ body, c ≠ '/' ∧ c ≠ '#') →
      parseLoop fs src paths (body.length + fuel) pre.length ts te lte st =
        parseLoop fs src paths fuel (pre.length + body.length) ts te lte st := by
  induction body with
  | nil =>
    intro src pre rest fuel ts te lte st _ _
    simp
  | cons c body ih =>
    intro src pre rest fuel ts te lte st hsrc hb
    have hc := hb c (by simp)
    have hlt : pre.length < src.length := by subst hsrc; simp
    have hhead : src[pre.length]? = some c :=
      getElem?_shape src pre c (body ++ rest) _ (by simp [hsrc]) rfl
    rw [show (c :: body).length + fuel = (body.length + fuel) + 1
      from by simp; omega]
    rw [parseLoop_step_char fs paths src (body.length + fuel) pre.length
      ts te lte st c hlt hhead hc.1 hc.2]
    have := ih src (pre ++ [c]) rest fuel ts te lte st (by simp [hsrc])
      (fun x hx => hb x (by simp [hx]))
    simp only [List.length_append, List.length_cons, List.length_nil] at this ⊢
    convert this using 2 <;> omega

theorem expandTokenF_pf_irrel (fs : FsEnv)
    (pf pf' : List Char → List (List Char) → Parser → Option Parser)
    (paths : List (List Char)) (tok : Token) (src : List Char)
    (cur : FileParser) (st : Parser)
    (h : tok.type ≠ TokenType.TOKEN_INCLUDE) :
    expandTokenF fs pf paths tok src cur st =
      expandTokenF fs pf' paths tok src cur st := by
  rcases tok with ⟨ty, err, args⟩
  cases ty
  case TOKEN_INCLUDE => exact absurd rfl h
  all_goals rfl

theorem parseLoop_dir_core (fs : FsEnv) (paths : List (List Char))
    (src pre stmt rest : List Char) (ws : List (List Char)) (tok : Token)
    (st st1 : Parser) (fuel ts te lte : Nat)
    (hsrc : src = pre ++ '#' :: stmt ++ '\n' :: rest)
    (hnl : ∀ c ∈ stmt, c ≠ '\n')
    (hsplit : split_statement src (pre.length + 1) stmt.length = some ws)
    (htok : tokenize_statement_list ws = some tok)
    (hni : tok.type ≠ TokenType.TOKEN_INCLUDE)
    (hexp : expandTokenF fs (fun _ _ _ => none) paths tok src
      ⟨pre.length + 1 + stmt.length, pre.length, te, te⟩ st = some st1) :
    parseLoop fs src paths (fuel + 1) pre.length ts te lte st =
      parseLoop fs src paths fuel (pre.length + 1 + stmt.length + 1)
        pre.length (pre.length + 1 + stmt.length) te
        (if tok.type = TokenType.TOKEN_GLSL then
          {st1 with module_parts :=
            st1.module_parts ++ ['#' :: (stmt ++ ['\n'])]}
        else st1) := by
  have hlt : pre.length < src.length := by subst hsrc; simp
  have hhead : src[pre.length]? = some '#' :=
    getElem?_shape src pre '#' (stmt ++ '\n' :: rest) _ (by simp [hsrc]) rfl
  have hscan : scanToNewline src (src.length + 1) (pre.length + 1) =
      some (pre.length + 1 + stmt.length) := by
    have := scanToNewline_run stmt src (pre ++ ['#']) rest (src.length + 1)
      (by simp [hsrc]) hnl (by subst hsrc; simp; omega)
    simpa using this
  have hsub : pre.length + 1 + stmt.length - (pre.length + 1) = stmt.length := by
    omega
  have hspan : spanText src pre.length (pre.length + 1 + stmt.length + 1) =
      '#' :: (stmt ++ ['\n']) := by
    have := spanText_shape src pre ('#' :: (stmt ++ ['\n'])) rest
      pre.length (pre.length + 1 + stmt.length + 1) (by simp [hsrc])
      rfl (by simp; omega)
    exact this
  have hirrel := expandTokenF_pf_irrel fs
    (fun s2 p2 st2 => (parseLoop fs s2 p2 fuel 0 0 0 0 st2).map Prod.snd)
    (fun _ _ _ => none) paths tok src
    ⟨pre.length + 1 + stmt.length, pre.length, te, te⟩ st hni
  simp only [parseLoop, if_pos hlt, hhead,
    if_neg (show ('#' : Char) ≠ '/' by decide),
    if_pos (show ('#' : Char) = '#' from rfl), directiveStep, hscan, hsub,
    hsplit, htok, hirrel, hexp, hspan]
  exact if_pos trivial

/-- Caller-normalised form of `parseLoop_dir_core`: the cursor positions of
the next loop state are supplied explicitly, together with proofs that they
equal the positions the scan produces. -/
theorem parseLoop_dir (fs : FsEnv) (paths : List (List Char))
    (src pre stmt rest : List Char) (ws : List (List Char)) (tok : Token)
    (st st1 stOut : Parser) (fuel ts te lte i1 i2 ts2 te2 : Nat)
    (hsrc : src = pre ++ '#' :: stmt ++ '
' :: rest)
    (hnl : ∀ c ∈ stmt, c ≠ '
')
    (hsplit : split_statement src (pre.length + 1) stmt.length = some ws)
    (htok : tokenize_statement_list ws = some tok)
    (hni : tok.type ≠ TokenType.TOKEN_INCLUDE)
    (hexp : expandTokenF fs (fun _ _ _ => none) paths tok src
      ⟨pre.length + 1 + stmt.length, pre.length, te, te⟩ st = some st1)
    (hi1 : i1 = pre.length)
    (hi2 : i2 = pre.length + 1 + stmt.length + 1)
    (hts2 : ts2 = pre.length)
    (hte2 : te2 = pre.length + 1 + stmt.length)
    (hstOut : stOut = if tok.type = TokenType.TOKEN_GLSL then
      {st1 with module_parts := st1.module_parts ++ ['#' :: (stmt ++ ['
'])]}
      else st1) :
    parseLoop fs src paths (fuel + 1) i1 ts te lte st =
      parseLoop fs src paths fuel i2 ts2 te2 te stOut := by
  subst hi1; subst hi2; subst hts2; subst hte2; subst hstOut
  exact parseLoop_dir_core fs paths src pre stmt rest ws tok st st1 fuel
    ts te lte hsrc hnl hsplit htok hni hexp

/-- Caller-normalised form of `parseLoop_run_plain`. -/
theorem parseLoop_run_plain2 (fs : FsEnv) (paths : List (List Char))
    (body src pre rest : List Char) (fuelTot fuel ts te lte i1 i2 : Nat)
    (st : Parser)
    (hsrc : src = pre ++ body ++ rest)
    (hb : ∀ c ∈ body, c ≠ '/' ∧ c ≠ '#')
    (hfuel : fuelTot = body.length + fuel)
    (hi1 : i1 = pre.length)
    (hi2 : i2 = pre.length + body.length) :
    parseLoop fs src paths fuelTot i1 ts te lte st =
      parseLoop fs src paths fuel i2 ts te lte st := by
  subst hfuel; subst hi1; subst hi2
  exact parseLoop_run_plain fs paths body src pre rest fuel ts te lte st
    hsrc hb

/-- Caller-normalised exit lemma. -/
theorem parseLoop_exit2 (fs : FsEnv) (paths : List (List Char))
    (src : List Char) (fuel i ts te lte : Nat) (st : Parser)
    (out : Option (FileParser × Parser))
    (h : ¬ i < src.length)
    (hout : out = some (⟨i, ts, te, lte⟩, st)) :
    parseLoop fs src paths fuel i ts te lte st = out := by
  subst hout
  exact parseLoop_exit fs paths src fuel i ts te lte st h

theorem ar_str_trim_ws_cons (c : Char) (x : List Char)
    (h : ar_char_is_whitespace c = true) :
    ar_str_trim (c :: x) = ar_str_trim x := by
  simp [ar_str_trim, List.dropWhile_cons, h]

theorem vertCode_eq (b : List Char) :
    ar_str_trim (ar_str_list_join
      (([] : List Char) :: (if ('\n' :: b).length = 2 then [] else ['\n' :: b]))) =
      if b.length = 1 then [] else ar_str_trim b := by
  by_cases h : b.length = 1
  · rw [if_pos (by simp [h]), if_pos h]
    rfl
  · rw [if_neg (by simp [h]), if_neg h]
    rw [show ar_str_list_join (([] : List Char) :: ['\n' :: b]) = '\n' :: b
      from by simp [ar_str_list_join]]
    exact ar_str_trim_ws_cons '\n' b (by decide)

theorem fragCode_eq (b : List Char) :
    ar_str_trim (ar_str_list_join
      (['\n'] :: (if ('\n' :: b).length = 2 then [] else ['\n' :: b]))) =
      if b.length = 1 then [] else ar_str_trim b := by
  by_cases h : b.length = 1
  · rw [if_pos (by simp [h]), if_pos h]
    rw [show ar_str_list_join (['\n'] :: []) = ['\n'] from rfl]
    rw [ar_str_trim_ws_cons '\n' [] (by decide)]
    rfl
  · rw [if_neg (by simp [h]), if_neg h]
    rw [show ar_str_list_join (['\n'] :: ['\n' :: b]) = '\n' :: '\n' :: b
      from by simp [ar_str_list_join]]
    rw [ar_str_trim_ws_cons '\n' ('\n' :: b) (by decide),
      ar_str_trim_ws_cons '\n' b (by decide)]

/-- `expand_token` on `end` with a module open and a fresh name: the pending
fragments (plus the collapse-filtered pre-directive span) are joined,
trimmed and registered, and the module-in-progress state is reset. -/
theorem expand_end_close (fs : FsEnv)
    (pf : List Char → List (List Char) → Parser → Option Parser)
    (paths : List (List Char)) (src : List Char) (cur : FileParser)
    (cm : ModuleType) (parts : List (List Char))
    (mmap : List (List Char × Module)) (cmap : List (List Char × List Char))
    (name : List Char) (prog : Option ProgramDef) (errs : List (List Char))
    (spanV : List Char)
    (hcm : cm ≠ ModuleType.MODULE_NONE)
    (hspan : spanText src cur.last_token_end cur.token_start = spanV)
    (hdiff : cur.token_start - cur.last_token_end = spanV.length)
    (hnew : hm_lookup mmap name = none) :
    expandTokenF fs pf paths ⟨.TOKEN_END, [], []⟩ src cur
      ⟨cm, parts, mmap, cmap, name, prog, errs⟩ =
      some ⟨.MODULE_NONE, [],
        mmap ++ [(name,
          ⟨ar_str_trim (ar_str_list_join
            (parts ++ if spanV.length = 2 then [] else [spanV])), cm⟩)],
        cmap, [], prog, errs⟩ := by
  by_cases h2 : spanV.length = 2
  · simp [expandTokenF, add_module_part, hspan, hdiff, h2, hcm,
      ar_hash_map_insert, hnew]
  · simp [expandTokenF, add_module_part, hspan, hdiff, h2, hcm,
      ar_hash_map_insert, hnew]

/-- `expand_token` on `end` with a module open and an already-registered
name: exactly one "already been defined" diagnostic, registry unchanged. -/
theorem expand_end_dup (fs : FsEnv)
    (pf : List Char → List (List Char) → Parser → Option Parser)
    (paths : List (List Char)) (src : List Char) (cur : FileParser)
    (cm : ModuleType) (parts : List (List Char))
    (mmap : List (List Char × Module)) (cmap : List (List Char × List Char))
    (name : List Char) (prog : Option ProgramDef) (errs : List (List Char))
    (spanV : List Char) (M : Module)
    (hcm : cm ≠ ModuleType.MODULE_NONE)
    (hspan : spanText src cur.last_token_end cur.token_start = spanV)
    (hdiff : cur.token_start - cur.last_token_end = spanV.length)
    (hdup : hm_lookup mmap name = some M) :
    expandTokenF fs pf paths ⟨.TOKEN_END, [], []⟩ src cur
      ⟨cm, parts, mmap, cmap, name, prog, errs⟩ =
      some ⟨.MODULE_NONE, [], mmap, cmap, [], prog,
        errs ++ [name ++ (": Module has already been defined.").data]⟩ := by
  by_cases h2 : spanV.length = 2
  · simp [expandTokenF, add_module_part, hspan, hdiff, h2, hcm,
      ar_hash_map_insert, hdup]
  · simp [expandTokenF, add_module_part, hspan, hdiff, h2, hcm,
      ar_hash_map_insert, hdup]

/-- `expand_token` on `module NAME` with no module open: the name is
recorded, the kind becomes generic, and the pre-directive span is appended
(the span-collapse condition is assumed false here). -/
theorem expand_module_open (fs : FsEnv)
    (pf : List Char → List (List Char) → Parser → Option Parser)
    (paths : List (List Char)) (src : List Char) (cur : FileParser)
    (parts : List (List Char)) (mmap : List (List Char × Module))
    (cmap : List (List Char × List Char)) (mn : List Char)
    (prog : Option ProgramDef) (errs : List (List Char))
    (A spanV : List Char)
    (hspan : spanText src cur.last_token_end cur.token_start = spanV)
    (hd : cur.token_start - cur.last_token_end ≠ 2) :
    expandTokenF fs pf paths ⟨.TOKEN_MODULE, [], [A]⟩ src cur
      ⟨.MODULE_NONE, parts, mmap, cmap, mn, prog, errs⟩ =
      some ⟨.MODULE_MODULE, parts ++ [spanV], mmap, cmap, A, prog, errs⟩ := by
  simp [expandTokenF, Token.arg, add_module_part, hspan, hd]

/-- `expand_token` on `vert NAME` with no module open. -/
theorem expand_vert_open (fs : FsEnv)
    (pf : List Char → List (List Char) → Parser → Option Parser)
    (paths : List (List Char)) (src : List Char) (cur : FileParser)
    (parts : List (List Char)) (mmap : List (List Char × Module))
    (cmap : List (List Char × List Char)) (mn : List Char)
    (prog : Option ProgramDef) (errs : List (List Char))
    (A spanV : List Char)
    (hspan : spanText src cur.last_token_end cur.token_start = spanV)
    (hd : cur.token_start - cur.last_token_end ≠ 2) :
    expandTokenF fs pf paths ⟨.TOKEN_VERT, [], [A]⟩ src cur
      ⟨.MODULE_NONE, parts, mmap, cmap, mn, prog, errs⟩ =
      some ⟨.MODULE_VERT, parts ++ [spanV], mmap, cmap, A, prog, errs⟩ := by
  simp [expandTokenF, Token.arg, add_module_part, hspan, hd]

/-- `expand_token` on `frag NAME` with no module open. -/
theorem expand_frag_open (fs : FsEnv)
    (pf : List Char → List (List Char) → Parser → Option Parser)
    (paths : List (List Char)) (src : List Char) (cur : FileParser)
    (parts : List (List Char)) (mmap : List (List Char × Module))
    (cmap : List (List Char × List Char)) (mn : List Char)
    (prog : Option ProgramDef) (errs : List (List Char))
    (A spanV : List Char)
    (hspan : spanText src cur.last_token_end cur.token_start = spanV)
    (hd : cur.token_start - cur.last_token_end ≠ 2) :
    expandTokenF fs pf paths ⟨.TOKEN_FRAG, [], [A]⟩ src cur
      ⟨.MODULE_NONE, parts, mmap, cmap, mn, prog, errs⟩ =
      some ⟨.MODULE_FRAG, parts ++ [spanV], mmap, cmap, A, prog, errs⟩ := by
  simp [expandTokenF, Token.arg, add_module_part, hspan, hd]

/-- `expand_token` on a well-formed `program NAME VK FK` directive: both
lookups resolve with the right kinds, and the program is recorded. -/
theorem expand_program_ok (fs : FsEnv)
    (pf : List Char → List (List Char) → Parser → Option Parser)
    (paths : List (List Char)) (src : List Char) (cur : FileParser)
    (parts : List (List Char)) (mmap : List (List Char × Module))
    (cmap : List (List Char × List Char)) (mn : List Char)
    (errs : List (List Char)) (nm vk fk : List Char) (Mv Mf : Module)
    (hv : hm_lookup mmap vk = some Mv)
    (hvt : Mv.type = ModuleType.MODULE_VERT)
    (hf : hm_lookup mmap fk = some Mf)
    (hft : Mf.type = ModuleType.MODULE_FRAG) :
    expandTokenF fs pf paths ⟨.TOKEN_PROGRAM, [], [nm, vk, fk]⟩ src cur
      ⟨.MODULE_NONE, parts, mmap, cmap, mn, none, errs⟩ =
      some ⟨.MODULE_NONE, parts, mmap, cmap, mn, some ⟨nm, Mv, Mf⟩, errs⟩ := by
  simp [expandTokenF, Token.arg, ar_hash_map_get, hv, hf, hvt, hft]

/-- `expand_token` on a passthrough GLSL token with a module open: the
interpreter only appends the pre-directive span (the line itself is
appended by the scan loop afterwards). -/
theorem expand_glsl_open (fs : FsEnv)
    (pf : List Char → List (List Char) → Parser → Option Parser)
    (paths : List (List Char)) (src : List Char) (cur : FileParser)
    (cm : ModuleType) (parts : List (List Char))
    (mmap : List (List Char × Module)) (cmap : List (List Char × List Char))
    (mn : List Char) (prog : Option ProgramDef) (errs : List (List Char))
    (spanV : List Char)
    (hcm : cm ≠ ModuleType.MODULE_NONE)
    (hspan : spanText src cur.last_token_end cur.token_start = spanV)
    (hd : cur.token_start - cur.last_token_end ≠ 2) :
    expandTokenF fs pf paths ⟨.TOKEN_GLSL, [], []⟩ src cur
      ⟨cm, parts, mmap, cmap, mn, prog, errs⟩ =
      some ⟨cm, parts ++ [spanV], mmap, cmap, mn, prog, errs⟩ := by
  simp [expandTokenF, add_module_part, hspan, hd, hcm]

/-- `expand_token` on an error token with a module open: the diagnostic is
reported and only the pre-directive span joins the body. -/
theorem expand_error_open (fs : FsEnv)
    (pf : List Char → List (List Char) → Parser → Option Parser)
    (paths : List (List Char)) (src : List Char) (cur : FileParser)
    (cm : ModuleType) (parts : List (List Char))
    (mmap : List (List Char × Module)) (cmap : List (List Char × List Char))
    (mn : List Char) (prog : Option ProgramDef) (errs : List (List Char))
    (msg spanV : List Char)
    (hcm : cm ≠ ModuleType.MODULE_NONE)
    (hspan : spanText src cur.last_token_end cur.token_start = spanV)
    (hd : cur.token_start - cur.last_token_end ≠ 2) :
    expandTokenF fs pf paths ⟨.TOKEN_ERROR, msg, []⟩ src cur
      ⟨cm, parts, mmap, cmap, mn, prog, errs⟩ =
      some ⟨cm, parts ++ [spanV], mmap, cmap, mn, prog, errs ++ [msg]⟩ := by
  simp [expandTokenF, add_module_part, hspan, hd, hcm]

theorem joinWords_no_nl (ws : List (List Char)) (h : ∀ w ∈ ws, goodWord w) :
    ∀ c ∈ joinWords ws, c ≠ '\n' := by
  induction ws with
  | nil => simp [joinWords]
  | cons w ws' ih =>
    cases ws' with
    | nil =>
      simp only [joinWords]
      intro c hc e
      subst e
      have := (h w (by simp)).2 _ hc
      simp [ar_char_is_whitespace] at this
    | cons w2 ws'' =>
      simp only [joinWords]
      intro c hc
      rcases List.mem_append.1 hc with h1 | h2
      · intro e
        subst e
        have := (h w (by simp)).2 _ h1
        simp [ar_char_is_whitespace] at this
      · rcases List.mem_cons.1 h2 with rfl | h3
        · decide
        · exact ih (fun x hx => h x (by simp [hx])) c h3

end ShaderTool

namespace ShaderTool

/-! ## Claim theorems -/

/-- Claim C7, counterexample: parsing `#end\n` (no module open) leaves every
state component unchanged but reports the literal diagnostic
`Extranious end statment.` (sic), which is not the spelling
`Extraneous end statement` stated by the claim. -/
theorem c7_counterexample :
    parse emptyFs 6 ("#end\n").data [] parser_init =
      some {parser_init with errors := [("Extranious end statment.").data]} ∧
    ("Extranious end statment.").data ≠ ("Extraneous end statement").data := by
  decide

/-- Claim C7 (amended): an `end` token arriving while no module is open
appends the single diagnostic `Extranious end statment.` (the code's literal
spelling) to the sink and leaves every other component of the parser state —
module kind, pending fragments, module registry, type-alias table, program —
exactly unchanged. -/
theorem c7_extraneous_end_amended (fs : FsEnv)
    (pf : List Char → List (List Char) → Parser → Option Parser)
    (paths : List (List Char)) (src : List Char) (cur : FileParser)
    (st : Parser) (h : st.current_module = ModuleType.MODULE_NONE) :
    expandTokenF fs pf paths ⟨.TOKEN_END, [], []⟩ src cur st =
      some {st with errors := st.errors ++ [("Extranious end statment.").data]} := by
  simp [expandTokenF, h]

/-- Witness for `c7_extraneous_end_amended` at a concrete state. -/
theorem c7_witness :
    parser_init.current_module = ModuleType.MODULE_NONE ∧
    expandTokenF emptyFs (fun _ _ _ => none) [] ⟨.TOKEN_END, [], []⟩ []
      ⟨0, 0, 0, 0⟩ parser_init =
      some {parser_init with errors := [("Extranious end statment.").data]} :=
  ⟨rfl, c7_extraneous_end_amended emptyFs (fun _ _ _ => none) [] []
    ⟨0, 0, 0, 0⟩ parser_init rfl⟩

/-- Claim C5: a `program` token whose vertex key does not resolve to a
registered vertex-kind module and whose fragment key does not resolve to a
registered fragment-kind module performs both checks and reports both
diagnostics in the same pass, and the program stays undefined (the state is
unchanged apart from the two appended diagnostics). -/
theorem c5_program_two_diagnostics (fs : FsEnv)
    (pf : List Char → List (List Char) → Parser → Option Parser)
    (paths : List (List Char)) (src : List Char) (cur : FileParser)
    (st : Parser) (nm vk fk : List Char)
    (hprog : st.program = none)
    (hmod : st.current_module = ModuleType.MODULE_NONE)
    (hv : (ar_hash_map_get st.module_map vk ⟨[], .MODULE_NONE⟩).type ≠
      ModuleType.MODULE_VERT)
    (hf : (ar_hash_map_get st.module_map fk ⟨[], .MODULE_NONE⟩).type ≠
      ModuleType.MODULE_FRAG) :
    expandTokenF fs pf paths ⟨.TOKEN_PROGRAM, [], [nm, vk, fk]⟩ src cur st =
      some {st with errors := st.errors ++
        [vk ++ (": Vertex module not found.").data,
         fk ++ (": Fragment module not found.").data]} := by
  simp [expandTokenF, Token.arg, hprog, hmod, hv, hf]

/-- Witness for `c5_program_two_diagnostics`: empty registry, both lookups
miss (null module, kind `MODULE_NONE`). -/
theorem c5_witness :
    parser_init.program = none ∧
    expandTokenF emptyFs (fun _ _ _ => none) [] ⟨.TOKEN_PROGRAM, [],
        [("p").data, ("a").data, ("b").data]⟩ [] ⟨0, 0, 0, 0⟩ parser_init =
      some {parser_init with errors :=
        [("a").data ++ (": Vertex module not found.").data,
         ("b").data ++ (": Fragment module not found.").data]} :=
  ⟨rfl, c5_program_two_diagnostics emptyFs (fun _ _ _ => none) [] []
    ⟨0, 0, 0, 0⟩ parser_init ("p").data ("a").data ("b").data rfl rfl
    (by decide) (by decide)⟩

/-- The counterexample source for claim C4: a vert block, an
`include_module` directive executed outside any module, then a module block
containing only whitespace. -/
def c4S : List Char :=
  ("#vert a\nX\n#end\n#include_module a\n#module b\n#end\n").data

/-- Claim C4, counterexample: in
`#vert a\nX\n#end\n#include_module a\n#module b\n#end\n` the
`#include_module a` directive executes while no module is open, yet module
`b` closes with body `X` — module `a`'s body, which the directive pushed
onto the pending-fragment list. The claim ("contributes nothing to the body
of any module opened and closed later") requires `b`'s body to be empty:
the only text inside the `#module b ... #end` block is a newline, whose
trim is empty (second conjunct). -/
theorem c4_counterexample :
    parse emptyFs (c4S.length + 1) c4S [] parser_init =
      some ⟨.MODULE_NONE, [], [(("a").data, ⟨("X").data, .MODULE_VERT⟩), (("b").data, ⟨("X").data, .MODULE_MODULE⟩)], [], [], none, []⟩ ∧
    ar_str_trim (spanText c4S 42 43) = [] := by
  constructor
  · unfold parse
    rw [parseLoop_dir emptyFs [] c4S ("").data ("vert a").data ("X\n#end\n#include_module a\n#module b\n#end\n").data
      [("vert").data, ("a").data] ⟨.TOKEN_VERT, [], [("a").data]⟩ parser_init ⟨.MODULE_VERT, [[]], [], [], ("a").data, none, []⟩ ⟨.MODULE_VERT, [[]], [], [], ("a").data, none, []⟩
      (c4S.length) 0 0 0 0 8 0 7
      (by decide) (by decide) (by decide) (by decide) (by decide)
      (by decide) (by decide) (by decide) (by decide) (by decide) (by decide)]
    rw [parseLoop_run_plain2 emptyFs [] ("X\n").data c4S ("#vert a\n").data
      ("#end\n#include_module a\n#module b\n#end\n").data
      (c4S.length) (c4S.length - 2) 0 7 0 8 10 ⟨.MODULE_VERT, [[]], [], [], ("a").data, none, []⟩
      (by decide) (by decide) (by decide) (by decide) (by decide)]
    rw [show c4S.length - 2 = (c4S.length - 3) + 1 from by decide]
    rw [parseLoop_dir emptyFs [] c4S ("#vert a\nX\n").data ("end").data ("#include_module a\n#module b\n#end\n").data
      [("end").data] ⟨.TOKEN_END, [], []⟩ ⟨.MODULE_VERT, [[]], [], [], ("a").data, none, []⟩ ⟨.MODULE_NONE, [], [(("a").data, ⟨("X").data, .MODULE_VERT⟩)], [], [], none, []⟩ ⟨.MODULE_NONE, [], [(("a").data, ⟨("X").data, .MODULE_VERT⟩)], [], [], none, []⟩
      (c4S.length - 3) 0 7 0 10 15 10 14
      (by decide) (by decide) (by decide) (by decide) (by decide)
      (by decide) (by decide) (by decide) (by decide) (by decide) (by decide)]
    rw [show c4S.length - 3 = (c4S.length - 4) + 1 from by decide]
    rw [parseLoop_dir emptyFs [] c4S ("#vert a\nX\n#end\n").data ("include_module a").data ("#module b\n#end\n").data
      [("include_module").data, ("a").data] ⟨.TOKEN_INCLUDE_MODULE, [], [("a").data]⟩ ⟨.MODULE_NONE, [], [(("a").data, ⟨("X").data, .MODULE_VERT⟩)], [], [], none, []⟩ ⟨.MODULE_NONE, [("X").data], [(("a").data, ⟨("X").data, .MODULE_VERT⟩)], [], [], none, []⟩ ⟨.MODULE_NONE, [("X").data], [(("a").data, ⟨("X").data, .MODULE_VERT⟩)], [], [], none, []⟩
      (c4S.length - 4) 10 14 7 15 33 15 32
      (by decide) (by decide) (by decide) (by decide) (by decide)
      (by decide) (by decide) (by decide) (by decide) (by decide) (by decide)]
    rw [show c4S.length - 4 = (c4S.length - 5) + 1 from by decide]
    rw [parseLoop_dir emptyFs [] c4S ("#vert a\nX\n#end\n#include_module a\n").data ("module b").data ("#end\n").data
      [("module").data, ("b").data] ⟨.TOKEN_MODULE, [], [("b").data]⟩ ⟨.MODULE_NONE, [("X").data], [(("a").data, ⟨("X").data, .MODULE_VERT⟩)], [], [], none, []⟩ ⟨.MODULE_MODULE, [("X").data, ("\n").data], [(("a").data, ⟨("X").data, .MODULE_VERT⟩)], [], ("b").data, none, []⟩ ⟨.MODULE_MODULE, [("X").data, ("\n").data], [(("a").data, ⟨("X").data, .MODULE_VERT⟩)], [], ("b").data, none, []⟩
      (c4S.length - 5) 15 32 14 33 43 33 42
      (by decide) (by decide) (by decide) (by decide) (by decide)
      (by decide) (by decide) (by decide) (by decide) (by decide) (by decide)]
    rw [show c4S.length - 5 = (c4S.length - 6) + 1 from by decide]
    rw [parseLoop_dir emptyFs [] c4S ("#vert a\nX\n#end\n#include_module a\n#module b\n").data ("end").data ("").data
      [("end").data] ⟨.TOKEN_END, [], []⟩ ⟨.MODULE_MODULE, [("X").data, ("\n").data], [(("a").data, ⟨("X").data, .MODULE_VERT⟩)], [], ("b").data, none, []⟩ ⟨.MODULE_NONE, [], [(("a").data, ⟨("X").data, .MODULE_VERT⟩), (("b").data, ⟨("X").data, .MODULE_MODULE⟩)], [], [], none, []⟩ ⟨.MODULE_NONE, [], [(("a").data, ⟨("X").data, .MODULE_VERT⟩), (("b").data, ⟨("X").data, .MODULE_MODULE⟩)], [], [], none, []⟩
      (c4S.length - 6) 33 42 32 43 48 43 47
      (by decide) (by decide) (by decide) (by decide) (by decide)
      (by decide) (by decide) (by decide) (by decide) (by decide) (by decide)]
    rw [parseLoop_exit2 emptyFs [] c4S (c4S.length - 6) 48 43 47 42
      ⟨.MODULE_NONE, [], [(("a").data, ⟨("X").data, .MODULE_VERT⟩), (("b").data, ⟨("X").data, .MODULE_MODULE⟩)], [], [], none, []⟩ _ (by decide) rfl]
    rfl
  · decide

/-- Claim C4 (amended): an `include_module` token executed while no module
is open, whose name resolves in the registry, appends the stored module
body to the pending-fragment list (which persists into the next module
opened later); only the fragment list changes. -/
theorem c4_include_module_outside_appends (fs : FsEnv)
    (pf : List Char → List (List Char) → Parser → Option Parser)
    (paths : List (List Char)) (src : List Char) (cur : FileParser)
    (st : Parser) (n : List Char) (m : Module)
    (hmod : st.current_module = ModuleType.MODULE_NONE)
    (hfound : hm_lookup st.module_map n = some m) :
    expandTokenF fs pf paths ⟨.TOKEN_INCLUDE_MODULE, [], [n]⟩ src cur st =
      some {st with module_parts := st.module_parts ++ [m.code]} := by
  simp [expandTokenF, Token.arg, hfound, hmod]

/-- Witness for `c4_include_module_outside_appends`. -/
theorem c4_witness :
    ({parser_init with
        module_map := [(("a").data, ⟨("X").data, .MODULE_VERT⟩)]} :
      Parser).current_module = ModuleType.MODULE_NONE ∧
    expandTokenF emptyFs (fun _ _ _ => none) []
      ⟨.TOKEN_INCLUDE_MODULE, [], [("a").data]⟩ [] ⟨0, 0, 0, 0⟩
      {parser_init with
        module_map := [(("a").data, ⟨("X").data, .MODULE_VERT⟩)]} =
      some {parser_init with
        module_map := [(("a").data, ⟨("X").data, .MODULE_VERT⟩)],
        module_parts := [("X").data]} :=
  ⟨rfl, c4_include_module_outside_appends emptyFs (fun _ _ _ => none) [] []
    ⟨0, 0, 0, 0⟩ _ ("a").data ⟨("X").data, .MODULE_VERT⟩ rfl (by decide)⟩

/-- Claim C2: evaluating the failing input — an `#include f` directive with
the non-empty search path list `[p]` and no openable file anywhere — the
parse crashes (`none`): after reporting the not-found diagnostic the include
handler does not break, but goes on to `read_file` and recursively `parse`
the null path, whose behaviour is undefined. The claim's "no recursive
parse occurs and the state is unchanged" does not hold. -/
theorem c2_include_not_found_crash :
    parse_shader emptyFs ("#include f\n").data [("p").data] = none := by
  decide

/-- Claim C3: evaluating the failing input `#\n` — a directive with zero
words — the scan crashes (`none`, the tokenizer's null dereference) instead
of consuming the whole buffer, contradicting "for every input source buffer,
the parse terminates and consumes the whole buffer". -/
theorem c3_crash_on_empty_directive :
    parse_shader emptyFs ("#\n").data [] = none := by
  decide

/-- Claim C10: on the input `#\n` the statement is empty, `split_statement`
yields the empty word list, and `tokenize_statement_list` dereferences the
head of that empty list (`none`, a null-pointer crash in the C code) instead
of producing an error token. -/
theorem c10_tokenizer_crash_on_empty :
    split_statement ("#\n").data 1 0 = some [] ∧
    tokenize_statement_list [] = none := by
  decide

/-- The two-directive source `#ctypedef g t1\n#ctypedef g t2\n`. -/
def c9src (g t1 t2 : List Char) : List Char :=
  '#' :: ("ctypedef".data ++ ' ' :: (g ++ ' ' :: t1)) ++ '\n' ::
    ('#' :: ("ctypedef".data ++ ' ' :: (g ++ ' ' :: t2)) ++ '\n' :: [])

/-- Claim C9: for any pair of `#ctypedef` directives sharing the GLSL type
name `g` in one parse, the resulting type-alias table maps `g` to the first
directive's target `t1`; the second insertion is accepted but has no effect
and produces no diagnostic (the sink stays empty). -/
theorem c9_ctypedef_first_wins (fs : FsEnv) (paths : List (List Char))
    (g t1 t2 : List Char)
    (hg : goodWord g) (h1 : goodWord t1) (h2 : goodWord t2) :
    parse_shader fs (c9src g t1 t2) paths =
      some (⟨⟨[], [], []⟩, [(g, t1)]⟩, []) := by
  have hkw : goodWord (("ctypedef").data) := ⟨by decide, by decide⟩
  have hws1 : ∀ w ∈ [("ctypedef").data, g, t1], goodWord w := by
    intro w hw
    simp only [List.mem_cons, List.not_mem_nil, or_false] at hw
    rcases hw with rfl | rfl | rfl
    exacts [hkw, hg, h1]
  have hws2 : ∀ w ∈ [("ctypedef").data, g, t2], goodWord w := by
    intro w hw
    simp only [List.mem_cons, List.not_mem_nil, or_false] at hw
    rcases hw with rfl | rfl | rfl
    exacts [hkw, hg, h2]
  have hjw1 : joinWords [("ctypedef").data, g, t1] =
      ("ctypedef").data ++ ' ' :: (g ++ ' ' :: t1) := rfl
  have hjw2 : joinWords [("ctypedef").data, g, t2] =
      ("ctypedef").data ++ ' ' :: (g ++ ' ' :: t2) := rfl
  have stA : Parser := ⟨.MODULE_NONE, [], [], [(g, t1)], [], none, []⟩
  have hparse : parse fs ((c9src g t1 t2).length + 1) (c9src g t1 t2) paths
      parser_init =
      some ⟨.MODULE_NONE, [], [], [(g, t1)], [], none, []⟩ := by
    unfold parse
    rw [parseLoop_dir fs paths (c9src g t1 t2) []
      (("ctypedef").data ++ ' ' :: (g ++ ' ' :: t1))
      ('#' :: (("ctypedef").data ++ ' ' :: (g ++ ' ' :: t2)) ++ '\n' :: [])
      [("ctypedef").data, g, t1] ⟨.TOKEN_CTYPEDEF, [], [g, t1]⟩
      parser_init ⟨.MODULE_NONE, [], [], [(g, t1)], [], none, []⟩
      ⟨.MODULE_NONE, [], [], [(g, t1)], [], none, []⟩
      ((c9src g t1 t2).length) 0 0 0 0
      ((("ctypedef").data ++ ' ' :: (g ++ ' ' :: t1)).length + 2) 0
      ((("ctypedef").data ++ ' ' :: (g ++ ' ' :: t1)).length + 1)
      (by simp [c9src])
      (by rw [← hjw1]; exact joinWords_no_nl _ hws1)
      (by
        have := split_statement_words (c9src g t1 t2) ['#']
          ('#' :: (("ctypedef").data ++ ' ' :: (g ++ ' ' :: t2)) ++ '\n' :: [])
          [("ctypedef").data, g, t1]
          (by simp [c9src, hjw1]) (by simp) hws1
        simpa [hjw1] using this)
      rfl
      (by simp)
      (by simp [expandTokenF, Token.arg, ar_hash_map_insert, hm_lookup,
        parser_init])
      (by simp)
      (by first | (simp [c9src]; omega) | simp [c9src])
      (by simp)
      (by first | (simp [c9src]; omega) | simp [c9src])
      (by simp)]
    rw [show (c9src g t1 t2).length = ((c9src g t1 t2).length - 1) + 1
      from by first | (simp [c9src]; omega) | simp [c9src]]
    rw [parseLoop_dir fs paths (c9src g t1 t2)
      ('#' :: (("ctypedef").data ++ ' ' :: (g ++ ' ' :: t1)) ++ ['\n'])
      (("ctypedef").data ++ ' ' :: (g ++ ' ' :: t2)) []
      [("ctypedef").data, g, t2] ⟨.TOKEN_CTYPEDEF, [], [g, t2]⟩
      ⟨.MODULE_NONE, [], [], [(g, t1)], [], none, []⟩
      ⟨.MODULE_NONE, [], [], [(g, t1)], [], none, []⟩
      ⟨.MODULE_NONE, [], [], [(g, t1)], [], none, []⟩
      ((c9src g t1 t2).length - 1) 0
      ((("ctypedef").data ++ ' ' :: (g ++ ' ' :: t1)).length + 1) 0
      ((("ctypedef").data ++ ' ' :: (g ++ ' ' :: t1)).length + 2)
      ((c9src g t1 t2).length)
      ((("ctypedef").data ++ ' ' :: (g ++ ' ' :: t1)).length + 2)
      ((c9src g t1 t2).length - 1)
      (by simp [c9src])
      (by rw [← hjw2]; exact joinWords_no_nl _ hws2)
      (by
        have := split_statement_words (c9src g t1 t2)
          ('#' :: (("ctypedef").data ++ ' ' :: (g ++ ' ' :: t1)) ++ ['\n'] ++ ['#'])
          [] [("ctypedef").data, g, t2]
          (by simp [c9src, hjw2]) (by simp) hws2
        simpa [hjw2] using this)
      rfl
      (by simp)
      (by simp [expandTokenF, Token.arg, ar_hash_map_insert, hm_lookup])
      (by first | (simp [c9src]; omega) | simp [c9src])
      (by first | (simp [c9src]; omega) | simp [c9src])
      (by first | (simp [c9src]; omega) | simp [c9src])
      (by first | (simp [c9src]; omega) | simp [c9src])
      (by simp)]
    rw [parseLoop_exit2 fs paths (c9src g t1 t2)
      ((c9src g t1 t2).length - 1) ((c9src g t1 t2).length)
      ((("ctypedef").data ++ ' ' :: (g ++ ' ' :: t1)).length + 2)
      ((c9src g t1 t2).length - 1)
      ((("ctypedef").data ++ ' ' :: (g ++ ' ' :: t1)).length + 1)
      ⟨.MODULE_NONE, [], [], [(g, t1)], [], none, []⟩ _
      (by omega) rfl]
    rfl
  simp only [parse_shader, hparse]

/-- Witness for `c9_ctypedef_first_wins` at `g = vec3`, `t1 = Vector3`,
`t2 = Vec3Alt`: the alias table keeps the first target. -/
theorem c9_witness :
    goodWord (("vec3").data) ∧
    parse_shader emptyFs
      (c9src ("vec3").data ("Vector3").data ("Vec3Alt").data) [] =
      some (⟨⟨[], [], []⟩, [(("vec3").data, ("Vector3").data)]⟩, []) :=
  ⟨⟨by decide, by decide⟩,
    c9_ctypedef_first_wins emptyFs [] ("vec3").data ("Vector3").data
      ("Vec3Alt").data ⟨by decide, by decide⟩ ⟨by decide, by decide⟩
      ⟨by decide, by decide⟩⟩

/-- The source `#vert A\n vb #end\n#frag B\n fb #end\n#program P A B\n`: a
well-formed vertex block, a fragment block and a program directive; `vb` and
`fb` are arbitrary directive-free text (no `#`, no `/`). -/
def c1src (A B P vb fb : List Char) : List Char :=
  '#' :: (("vert").data ++ ' ' :: A) ++ '\n' :: (vb ++ ('#' :: ("end").data ++ '\n' :: ('#' :: (("frag").data ++ ' ' :: B) ++ '\n' :: (fb ++ ('#' :: ("end").data ++ '\n' :: ('#' :: (("program").data ++ ' ' :: (P ++ ' ' :: (A ++ ' ' :: B))) ++ '\n' :: []))))))

/-- Claim C1: for every input consisting of a well-formed `#vert A ... #end`
block, a `#frag B ... #end` block and a subsequent `#program P A B`
directive, the parse result's Program has name `P`, vertex body equal to the
whitespace-trimmed concatenation of the vert block's appended text spans and
fragment body likewise. Per the span-collapse rule of the lexer, a
one-character body's span (length 2 with its leading newline) is not
appended, leaving the empty concatenation; otherwise the trimmed
concatenation equals the trimmed body text. No diagnostics are produced. -/
theorem c1_program_assembly (fs : FsEnv) (paths : List (List Char))
    (A B P vb fb : List Char)
    (hA : goodWord A) (hB : goodWord B) (hP : goodWord P) (hAB : A ≠ B)
    (hvb : ∀ c ∈ vb, c ≠ '/' ∧ c ≠ '#')
    (hfb : ∀ c ∈ fb, c ≠ '/' ∧ c ≠ '#') :
    parse_shader fs (c1src A B P vb fb) paths =
      some (⟨⟨P, if vb.length = 1 then [] else ar_str_trim vb,
        if fb.length = 1 then [] else ar_str_trim fb⟩, []⟩, []) := by
  have hv4 : (("vert").data).length = 4 := rfl
  have he3 : (("end").data).length = 3 := rfl
  have hf4 : (("frag").data).length = 4 := rfl
  have hp7 : (("program").data).length = 7 := rfl
  have hkV : goodWord (("vert").data) := ⟨by decide, by decide⟩
  have hkE : goodWord (("end").data) := ⟨by decide, by decide⟩
  have hkF : goodWord (("frag").data) := ⟨by decide, by decide⟩
  have hkP : goodWord (("program").data) := ⟨by decide, by decide⟩
  have hws1 : ∀ w ∈ [("vert").data, A], goodWord w := by
    intro w hw
    simp only [List.mem_cons, List.not_mem_nil, or_false] at hw
    rcases hw with rfl | rfl
    exacts [hkV, hA]
  have hws2 : ∀ w ∈ [("end").data], goodWord w := by
    intro w hw
    simp only [List.mem_singleton] at hw
    subst hw; exact hkE
  have hws3 : ∀ w ∈ [("frag").data, B], goodWord w := by
    intro w hw
    simp only [List.mem_cons, List.not_mem_nil, or_false] at hw
    rcases hw with rfl | rfl
    exacts [hkF, hB]
  have hws5 : ∀ w ∈ [("program").data, P, A, B], goodWord w := by
    intro w hw
    simp only [List.mem_cons, List.not_mem_nil, or_false] at hw
    rcases hw with rfl | rfl | rfl | rfl
    exacts [hkP, hP, hA, hB]
  have hjw1 : joinWords [("vert").data, A] = (("vert").data ++ ' ' :: A) := rfl
  have hjw2 : joinWords [("end").data] = ("end").data := rfl
  have hjw3 : joinWords [("frag").data, B] = (("frag").data ++ ' ' :: B) := rfl
  have hjw5 : joinWords [("program").data, P, A, B] = (("program").data ++ ' ' :: (P ++ ' ' :: (A ++ ' ' :: B))) := rfl
  have hexp1 : expandTokenF fs (fun _ _ _ => none) paths
      ⟨.TOKEN_VERT, [], [A]⟩ (c1src A B P vb fb)
      ⟨([] : List Char).length + 1 + (("vert").data ++ ' ' :: A).length, ([] : List Char).length,
        0, 0⟩ parser_init = some ⟨.MODULE_VERT, [[]], [], [], A, none, []⟩ := by
    simp [expandTokenF, Token.arg, add_module_part, parser_init, spanText]
  have hexp2 : expandTokenF fs (fun _ _ _ => none) paths
      ⟨.TOKEN_END, [], []⟩ (c1src A B P vb fb)
      ⟨('#' :: (("vert").data ++ ' ' :: A) ++ '\n' :: vb).length + 1 + ("end").data.length, ('#' :: (("vert").data ++ ' ' :: A) ++ '\n' :: vb).length,
        A.length + 6, A.length + 6⟩ ⟨.MODULE_VERT, [[]], [], [], A, none, []⟩ = some ⟨.MODULE_NONE, [], [(A, (⟨if vb.length = 1 then [] else ar_str_trim vb, .MODULE_VERT⟩ : Module))], [], [], none, []⟩ := by
    have hsp : spanText (c1src A B P vb fb) (A.length + 6) (('#' :: (("vert").data ++ ' ' :: A) ++ '\n' :: vb).length) = '\n' :: vb :=
      spanText_shape (c1src A B P vb fb) ('#' :: (("vert").data ++ ' ' :: A)) ('\n' :: vb) ('#' :: ("end").data ++ '\n' :: ('#' :: (("frag").data ++ ' ' :: B) ++ '\n' :: (fb ++ ('#' :: ("end").data ++ '\n' :: ('#' :: (("program").data ++ ' ' :: (P ++ ' ' :: (A ++ ' ' :: B))) ++ '\n' :: [])))))
        (A.length + 6) (('#' :: (("vert").data ++ ' ' :: A) ++ '\n' :: vb).length) (by simp [c1src]) (by first | (simp [c1src, hv4, he3, hf4, hp7]; omega) | simp [c1src, hv4, he3, hf4, hp7]) (by first | (simp [c1src, hv4, he3, hf4, hp7]; omega) | simp [c1src, hv4, he3, hf4, hp7])
    have hdf : ('#' :: (("vert").data ++ ' ' :: A) ++ '\n' :: vb).length - (A.length + 6) = ('\n' :: vb).length := (by first | (simp [c1src, hv4, he3, hf4, hp7]; omega) | simp [c1src, hv4, he3, hf4, hp7])
    have h := expand_end_close fs (fun _ _ _ => none) paths (c1src A B P vb fb)
      ⟨('#' :: (("vert").data ++ ' ' :: A) ++ '\n' :: vb).length + 1 + ("end").data.length, ('#' :: (("vert").data ++ ' ' :: A) ++ '\n' :: vb).length, A.length + 6, A.length + 6⟩
      .MODULE_VERT [[]] [] [] A none [] ('\n' :: vb) (by simp) hsp hdf rfl
    rw [h]
    simp only [List.nil_append, List.singleton_append]
    rw [vertCode_eq]
  have hexp3 : expandTokenF fs (fun _ _ _ => none) paths
      ⟨.TOKEN_FRAG, [], [B]⟩ (c1src A B P vb fb)
      ⟨('#' :: (("vert").data ++ ' ' :: A) ++ '\n' :: (vb ++ ('#' :: ("end").data ++ ['\n']))).length + 1 + (("frag").data ++ ' ' :: B).length, ('#' :: (("vert").data ++ ' ' :: A) ++ '\n' :: (vb ++ ('#' :: ("end").data ++ ['\n']))).length,
        A.length + vb.length + 11, A.length + vb.length + 11⟩ ⟨.MODULE_NONE, [], [(A, (⟨if vb.length = 1 then [] else ar_str_trim vb, .MODULE_VERT⟩ : Module))], [], [], none, []⟩ = some ⟨.MODULE_FRAG, [['\n']], [(A, (⟨if vb.length = 1 then [] else ar_str_trim vb, .MODULE_VERT⟩ : Module))], [], B, none, []⟩ := by
    have hsp : spanText (c1src A B P vb fb) (A.length + vb.length + 11) (('#' :: (("vert").data ++ ' ' :: A) ++ '\n' :: (vb ++ ('#' :: ("end").data ++ ['\n']))).length) = ['\n'] :=
      spanText_shape (c1src A B P vb fb) ('#' :: (("vert").data ++ ' ' :: A) ++ '\n' :: (vb ++ '#' :: ("end").data))
        ['\n'] ('#' :: (("frag").data ++ ' ' :: B) ++ '\n' :: (fb ++ ('#' :: ("end").data ++ '\n' :: ('#' :: (("program").data ++ ' ' :: (P ++ ' ' :: (A ++ ' ' :: B))) ++ '\n' :: [])))) (A.length + vb.length + 11) (('#' :: (("vert").data ++ ' ' :: A) ++ '\n' :: (vb ++ ('#' :: ("end").data ++ ['\n']))).length)
        (by simp [c1src]) (by first | (simp [c1src, hv4, he3, hf4, hp7]; omega) | simp [c1src, hv4, he3, hf4, hp7]) (by first | (simp [c1src, hv4, he3, hf4, hp7]; omega) | simp [c1src, hv4, he3, hf4, hp7])
    have hd : (('#' :: (("vert").data ++ ' ' :: A) ++ '\n' :: (vb ++ ('#' :: ("end").data ++ ['\n']))).length) - (A.length + vb.length + 11) ≠ 2 := (by first | (simp [c1src, hv4, he3, hf4, hp7]; omega) | simp [c1src, hv4, he3, hf4, hp7])
    have h := expand_frag_open fs (fun _ _ _ => none) paths (c1src A B P vb fb)
      ⟨('#' :: (("vert").data ++ ' ' :: A) ++ '\n' :: (vb ++ ('#' :: ("end").data ++ ['\n']))).length + 1 + (("frag").data ++ ' ' :: B).length, ('#' :: (("vert").data ++ ' ' :: A) ++ '\n' :: (vb ++ ('#' :: ("end").data ++ ['\n']))).length, A.length + vb.length + 11, A.length + vb.length + 11⟩
      [] [(A, (⟨if vb.length = 1 then [] else ar_str_trim vb, .MODULE_VERT⟩ : Module))] [] [] none [] B ['\n'] hsp hd
    rw [h]
    simp
  have hexp4 : expandTokenF fs (fun _ _ _ => none) paths
      ⟨.TOKEN_END, [], []⟩ (c1src A B P vb fb)
      ⟨('#' :: (("vert").data ++ ' ' :: A) ++ '\n' :: (vb ++ ('#' :: ("end").data ++ '\n' :: ('#' :: (("frag").data ++ ' ' :: B) ++ '\n' :: fb)))).length + 1 + ("end").data.length, ('#' :: (("vert").data ++ ' ' :: A) ++ '\n' :: (vb ++ ('#' :: ("end").data ++ '\n' :: ('#' :: (("frag").data ++ ' ' :: B) ++ '\n' :: fb)))).length,
        A.length + vb.length + B.length + 18, A.length + vb.length + B.length + 18⟩ ⟨.MODULE_FRAG, [['\n']], [(A, (⟨if vb.length = 1 then [] else ar_str_trim vb, .MODULE_VERT⟩ : Module))], [], B, none, []⟩ = some ⟨.MODULE_NONE, [], [(A, (⟨if vb.length = 1 then [] else ar_str_trim vb, .MODULE_VERT⟩ : Module)), (B, (⟨if fb.length = 1 then [] else ar_str_trim fb, .MODULE_FRAG⟩ : Module))], [], [], none, []⟩ := by
    have hsp : spanText (c1src A B P vb fb) (A.length + vb.length + B.length + 18) (('#' :: (("vert").data ++ ' ' :: A) ++ '\n' :: (vb ++ ('#' :: ("end").data ++ '\n' :: ('#' :: (("frag").data ++ ' ' :: B) ++ '\n' :: fb)))).length) = '\n' :: fb :=
      spanText_shape (c1src A B P vb fb)
        ('#' :: (("vert").data ++ ' ' :: A) ++ '\n' :: (vb ++ ('#' :: ("end").data ++ '\n' :: ('#' :: (("frag").data ++ ' ' :: B)))))
        ('\n' :: fb) ('#' :: ("end").data ++ '\n' :: ('#' :: (("program").data ++ ' ' :: (P ++ ' ' :: (A ++ ' ' :: B))) ++ '\n' :: []))
        (A.length + vb.length + B.length + 18) (('#' :: (("vert").data ++ ' ' :: A) ++ '\n' :: (vb ++ ('#' :: ("end").data ++ '\n' :: ('#' :: (("frag").data ++ ' ' :: B) ++ '\n' :: fb)))).length) (by simp [c1src]) (by first | (simp [c1src, hv4, he3, hf4, hp7]; omega) | simp [c1src, hv4, he3, hf4, hp7]) (by first | (simp [c1src, hv4, he3, hf4, hp7]; omega) | simp [c1src, hv4, he3, hf4, hp7])
    have hdf : ('#' :: (("vert").data ++ ' ' :: A) ++ '\n' :: (vb ++ ('#' :: ("end").data ++ '\n' :: ('#' :: (("frag").data ++ ' ' :: B) ++ '\n' :: fb)))).length - (A.length + vb.length + B.length + 18) = ('\n' :: fb).length := (by first | (simp [c1src, hv4, he3, hf4, hp7]; omega) | simp [c1src, hv4, he3, hf4, hp7])
    have h := expand_end_close fs (fun _ _ _ => none) paths (c1src A B P vb fb)
      ⟨('#' :: (("vert").data ++ ' ' :: A) ++ '\n' :: (vb ++ ('#' :: ("end").data ++ '\n' :: ('#' :: (("frag").data ++ ' ' :: B) ++ '\n' :: fb)))).length + 1 + ("end").data.length, ('#' :: (("vert").data ++ ' ' :: A) ++ '\n' :: (vb ++ ('#' :: ("end").data ++ '\n' :: ('#' :: (("frag").data ++ ' ' :: B) ++ '\n' :: fb)))).length, A.length + vb.length + B.length + 18, A.length + vb.length + B.length + 18⟩
      .MODULE_FRAG [['\n']] [(A, (⟨if vb.length = 1 then [] else ar_str_trim vb, .MODULE_VERT⟩ : Module))] [] B none [] ('\n' :: fb)
      (by simp) hsp hdf (by simp [hm_lookup, hAB])
    rw [h]
    simp only [List.singleton_append]
    rw [fragCode_eq]
  have hexp5 : expandTokenF fs (fun _ _ _ => none) paths
      ⟨.TOKEN_PROGRAM, [], [P, A, B]⟩ (c1src A B P vb fb)
      ⟨('#' :: (("vert").data ++ ' ' :: A) ++ '\n' :: (vb ++ ('#' :: ("end").data ++ '\n' :: ('#' :: (("frag").data ++ ' ' :: B) ++ '\n' :: (fb ++ ('#' :: ("end").data ++ ['\n'])))))).length + 1 + (("program").data ++ ' ' :: (P ++ ' ' :: (A ++ ' ' :: B))).length, ('#' :: (("vert").data ++ ' ' :: A) ++ '\n' :: (vb ++ ('#' :: ("end").data ++ '\n' :: ('#' :: (("frag").data ++ ' ' :: B) ++ '\n' :: (fb ++ ('#' :: ("end").data ++ ['\n'])))))).length,
        A.length + vb.length + B.length + fb.length + 23, A.length + vb.length + B.length + fb.length + 23⟩ ⟨.MODULE_NONE, [], [(A, (⟨if vb.length = 1 then [] else ar_str_trim vb, .MODULE_VERT⟩ : Module)), (B, (⟨if fb.length = 1 then [] else ar_str_trim fb, .MODULE_FRAG⟩ : Module))], [], [], none, []⟩ = some ⟨.MODULE_NONE, [], [(A, (⟨if vb.length = 1 then [] else ar_str_trim vb, .MODULE_VERT⟩ : Module)), (B, (⟨if fb.length = 1 then [] else ar_str_trim fb, .MODULE_FRAG⟩ : Module))], [], [],
      some ⟨P, (⟨if vb.length = 1 then [] else ar_str_trim vb, .MODULE_VERT⟩ : Module), (⟨if fb.length = 1 then [] else ar_str_trim fb, .MODULE_FRAG⟩ : Module)⟩, []⟩ :=
    expand_program_ok fs (fun _ _ _ => none) paths (c1src A B P vb fb)
      ⟨('#' :: (("vert").data ++ ' ' :: A) ++ '\n' :: (vb ++ ('#' :: ("end").data ++ '\n' :: ('#' :: (("frag").data ++ ' ' :: B) ++ '\n' :: (fb ++ ('#' :: ("end").data ++ ['\n'])))))).length + 1 + (("program").data ++ ' ' :: (P ++ ' ' :: (A ++ ' ' :: B))).length, ('#' :: (("vert").data ++ ' ' :: A) ++ '\n' :: (vb ++ ('#' :: ("end").data ++ '\n' :: ('#' :: (("frag").data ++ ' ' :: B) ++ '\n' :: (fb ++ ('#' :: ("end").data ++ ['\n'])))))).length, A.length + vb.length + B.length + fb.length + 23, A.length + vb.length + B.length + fb.length + 23⟩
      [] [(A, (⟨if vb.length = 1 then [] else ar_str_trim vb, .MODULE_VERT⟩ : Module)), (B, (⟨if fb.length = 1 then [] else ar_str_trim fb, .MODULE_FRAG⟩ : Module))] [] [] [] P A B (⟨if vb.length = 1 then [] else ar_str_trim vb, .MODULE_VERT⟩ : Module) (⟨if fb.length = 1 then [] else ar_str_trim fb, .MODULE_FRAG⟩ : Module)
      (by simp [hm_lookup]) rfl (by simp [hm_lookup, hAB]) rfl
  have hparse : parse fs ((c1src A B P vb fb).length + 1) (c1src A B P vb fb) paths parser_init = some ⟨.MODULE_NONE, [], [(A, (⟨if vb.length = 1 then [] else ar_str_trim vb, .MODULE_VERT⟩ : Module)), (B, (⟨if fb.length = 1 then [] else ar_str_trim fb, .MODULE_FRAG⟩ : Module))], [], [],
      some ⟨P, (⟨if vb.length = 1 then [] else ar_str_trim vb, .MODULE_VERT⟩ : Module), (⟨if fb.length = 1 then [] else ar_str_trim fb, .MODULE_FRAG⟩ : Module)⟩, []⟩ := by
    unfold parse
    rw [parseLoop_dir fs paths (c1src A B P vb fb) [] (("vert").data ++ ' ' :: A) (vb ++ ('#' :: ("end").data ++ '\n' :: ('#' :: (("frag").data ++ ' ' :: B) ++ '\n' :: (fb ++ ('#' :: ("end").data ++ '\n' :: ('#' :: (("program").data ++ ' ' :: (P ++ ' ' :: (A ++ ' ' :: B))) ++ '\n' :: []))))))
      [("vert").data, A] ⟨.TOKEN_VERT, [], [A]⟩ parser_init ⟨.MODULE_VERT, [[]], [], [], A, none, []⟩ ⟨.MODULE_VERT, [[]], [], [], A, none, []⟩
      ((c1src A B P vb fb).length) 0 0 0 0 (A.length + 7) 0 (A.length + 6)
      (by simp [c1src])
      (by rw [← hjw1]; exact joinWords_no_nl _ hws1)
      (by
        have := split_statement_words (c1src A B P vb fb) (['#'] : List Char) (vb ++ ('#' :: ("end").data ++ '\n' :: ('#' :: (("frag").data ++ ' ' :: B) ++ '\n' :: (fb ++ ('#' :: ("end").data ++ '\n' :: ('#' :: (("program").data ++ ' ' :: (P ++ ' ' :: (A ++ ' ' :: B))) ++ '\n' :: []))))))
          [("vert").data, A] (by simp [c1src, hjw1]) (by simp) hws1
        simpa [hjw1] using this)
      rfl (by simp) hexp1 (by first | (simp [c1src, hv4, he3, hf4, hp7]; omega) | simp [c1src, hv4, he3, hf4, hp7]) (by first | (simp [c1src, hv4, he3, hf4, hp7]; omega) | simp [c1src, hv4, he3, hf4, hp7]) (by first | (simp [c1src, hv4, he3, hf4, hp7]; omega) | simp [c1src, hv4, he3, hf4, hp7]) (by first | (simp [c1src, hv4, he3, hf4, hp7]; omega) | simp [c1src, hv4, he3, hf4, hp7]) (by simp)]
    rw [parseLoop_run_plain2 fs paths vb (c1src A B P vb fb) ('#' :: (("vert").data ++ ' ' :: A) ++ ['\n'])
      ('#' :: ("end").data ++ '\n' :: ('#' :: (("frag").data ++ ' ' :: B) ++ '\n' :: (fb ++ ('#' :: ("end").data ++ '\n' :: ('#' :: (("program").data ++ ' ' :: (P ++ ' ' :: (A ++ ' ' :: B))) ++ '\n' :: [])))))
      ((c1src A B P vb fb).length) ((c1src A B P vb fb).length - vb.length) 0 (A.length + 6) 0 (A.length + 7) (A.length + vb.length + 7) ⟨.MODULE_VERT, [[]], [], [], A, none, []⟩
      (by simp [c1src]) hvb (by first | (simp [c1src, hv4, he3, hf4, hp7]; omega) | simp [c1src, hv4, he3, hf4, hp7]) (by first | (simp [c1src, hv4, he3, hf4, hp7]; omega) | simp [c1src, hv4, he3, hf4, hp7]) (by first | (simp [c1src, hv4, he3, hf4, hp7]; omega) | simp [c1src, hv4, he3, hf4, hp7])]
    rw [show (c1src A B P vb fb).length - vb.length = ((c1src A B P vb fb).length - vb.length - 1) + 1 from (by first | (simp [c1src, hv4, he3, hf4, hp7]; omega) | simp [c1src, hv4, he3, hf4, hp7])]
    rw [parseLoop_dir fs paths (c1src A B P vb fb) ('#' :: (("vert").data ++ ' ' :: A) ++ '\n' :: vb) ("end").data ('#' :: (("frag").data ++ ' ' :: B) ++ '\n' :: (fb ++ ('#' :: ("end").data ++ '\n' :: ('#' :: (("program").data ++ ' ' :: (P ++ ' ' :: (A ++ ' ' :: B))) ++ '\n' :: []))))
      [("end").data] ⟨.TOKEN_END, [], []⟩ ⟨.MODULE_VERT, [[]], [], [], A, none, []⟩ ⟨.MODULE_NONE, [], [(A, (⟨if vb.length = 1 then [] else ar_str_trim vb, .MODULE_VERT⟩ : Module))], [], [], none, []⟩ ⟨.MODULE_NONE, [], [(A, (⟨if vb.length = 1 then [] else ar_str_trim vb, .MODULE_VERT⟩ : Module))], [], [], none, []⟩
      ((c1src A B P vb fb).length - vb.length - 1) 0 (A.length + 6) 0 (A.length + vb.length + 7) (A.length + vb.length + 12)
      (A.length + vb.length + 7) (A.length + vb.length + 11)
      (by simp [c1src])
      (by rw [← hjw2]; exact joinWords_no_nl _ hws2)
      (by
        have := split_statement_words (c1src A B P vb fb)
          ('#' :: (("vert").data ++ ' ' :: A) ++ '\n' :: (vb ++ ['#'])) ('#' :: (("frag").data ++ ' ' :: B) ++ '\n' :: (fb ++ ('#' :: ("end").data ++ '\n' :: ('#' :: (("program").data ++ ' ' :: (P ++ ' ' :: (A ++ ' ' :: B))) ++ '\n' :: []))))
          [("end").data] (by simp [c1src, hjw2]) (by simp) hws2
        simpa [hjw2] using this)
      rfl (by simp) hexp2 (by first | (simp [c1src, hv4, he3, hf4, hp7]; omega) | simp [c1src, hv4, he3, hf4, hp7]) (by first | (simp [c1src, hv4, he3, hf4, hp7]; omega) | simp [c1src, hv4, he3, hf4, hp7]) (by first | (simp [c1src, hv4, he3, hf4, hp7]; omega) | simp [c1src, hv4, he3, hf4, hp7]) (by first | (simp [c1src, hv4, he3, hf4, hp7]; omega) | simp [c1src, hv4, he3, hf4, hp7]) (by simp)]
    rw [show (c1src A B P vb fb).length - vb.length - 1 = ((c1src A B P vb fb).length - vb.length - 2) + 1 from (by first | (simp [c1src, hv4, he3, hf4, hp7]; omega) | simp [c1src, hv4, he3, hf4, hp7])]
    rw [parseLoop_dir fs paths (c1src A B P vb fb) ('#' :: (("vert").data ++ ' ' :: A) ++ '\n' :: (vb ++ ('#' :: ("end").data ++ ['\n']))) (("frag").data ++ ' ' :: B) (fb ++ ('#' :: ("end").data ++ '\n' :: ('#' :: (("program").data ++ ' ' :: (P ++ ' ' :: (A ++ ' ' :: B))) ++ '\n' :: [])))
      [("frag").data, B] ⟨.TOKEN_FRAG, [], [B]⟩ ⟨.MODULE_NONE, [], [(A, (⟨if vb.length = 1 then [] else ar_str_trim vb, .MODULE_VERT⟩ : Module))], [], [], none, []⟩ ⟨.MODULE_FRAG, [['\n']], [(A, (⟨if vb.length = 1 then [] else ar_str_trim vb, .MODULE_VERT⟩ : Module))], [], B, none, []⟩ ⟨.MODULE_FRAG, [['\n']], [(A, (⟨if vb.length = 1 then [] else ar_str_trim vb, .MODULE_VERT⟩ : Module))], [], B, none, []⟩
      ((c1src A B P vb fb).length - vb.length - 2) (A.length + vb.length + 7) (A.length + vb.length + 11) (A.length + 6) (A.length + vb.length + 12)
      (A.length + vb.length + B.length + 19) (A.length + vb.length + 12) (A.length + vb.length + B.length + 18)
      (by simp [c1src])
      (by rw [← hjw3]; exact joinWords_no_nl _ hws3)
      (by
        have := split_statement_words (c1src A B P vb fb)
          ('#' :: (("vert").data ++ ' ' :: A) ++ '\n' :: (vb ++ ('#' :: ("end").data ++ '\n' :: ['#'])))
          (fb ++ ('#' :: ("end").data ++ '\n' :: ('#' :: (("program").data ++ ' ' :: (P ++ ' ' :: (A ++ ' ' :: B))) ++ '\n' :: []))) [("frag").data, B] (by simp [c1src, hjw3]) (by simp) hws3
        simpa [hjw3] using this)
      rfl (by simp) hexp3 (by first | (simp [c1src, hv4, he3, hf4, hp7]; omega) | simp [c1src, hv4, he3, hf4, hp7]) (by first | (simp [c1src, hv4, he3, hf4, hp7]; omega) | simp [c1src, hv4, he3, hf4, hp7]) (by first | (simp [c1src, hv4, he3, hf4, hp7]; omega) | simp [c1src, hv4, he3, hf4, hp7]) (by first | (simp [c1src, hv4, he3, hf4, hp7]; omega) | simp [c1src, hv4, he3, hf4, hp7]) (by simp)]
    rw [parseLoop_run_plain2 fs paths fb (c1src A B P vb fb) ('#' :: (("vert").data ++ ' ' :: A) ++ '\n' :: (vb ++ ('#' :: ("end").data ++ '\n' :: ('#' :: (("frag").data ++ ' ' :: B) ++ ['\n']))))
      ('#' :: ("end").data ++ '\n' :: ('#' :: (("program").data ++ ' ' :: (P ++ ' ' :: (A ++ ' ' :: B))) ++ '\n' :: []))
      ((c1src A B P vb fb).length - vb.length - 2) ((c1src A B P vb fb).length - vb.length - 2 - fb.length)
      (A.length + vb.length + 12) (A.length + vb.length + B.length + 18) (A.length + vb.length + 11) (A.length + vb.length + B.length + 19) (A.length + vb.length + B.length + fb.length + 19) ⟨.MODULE_FRAG, [['\n']], [(A, (⟨if vb.length = 1 then [] else ar_str_trim vb, .MODULE_VERT⟩ : Module))], [], B, none, []⟩
      (by simp [c1src]) hfb (by first | (simp [c1src, hv4, he3, hf4, hp7]; omega) | simp [c1src, hv4, he3, hf4, hp7]) (by first | (simp [c1src, hv4, he3, hf4, hp7]; omega) | simp [c1src, hv4, he3, hf4, hp7]) (by first | (simp [c1src, hv4, he3, hf4, hp7]; omega) | simp [c1src, hv4, he3, hf4, hp7])]
    rw [show (c1src A B P vb fb).length - vb.length - 2 - fb.length =
      ((c1src A B P vb fb).length - vb.length - fb.length - 3) + 1 from (by first | (simp [c1src, hv4, he3, hf4, hp7]; omega) | simp [c1src, hv4, he3, hf4, hp7])]
    rw [parseLoop_dir fs paths (c1src A B P vb fb) ('#' :: (("vert").data ++ ' ' :: A) ++ '\n' :: (vb ++ ('#' :: ("end").data ++ '\n' :: ('#' :: (("frag").data ++ ' ' :: B) ++ '\n' :: fb)))) ("end").data
      ('#' :: (("program").data ++ ' ' :: (P ++ ' ' :: (A ++ ' ' :: B))) ++ '\n' :: [])
      [("end").data] ⟨.TOKEN_END, [], []⟩ ⟨.MODULE_FRAG, [['\n']], [(A, (⟨if vb.length = 1 then [] else ar_str_trim vb, .MODULE_VERT⟩ : Module))], [], B, none, []⟩ ⟨.MODULE_NONE, [], [(A, (⟨if vb.length = 1 then [] else ar_str_trim vb, .MODULE_VERT⟩ : Module)), (B, (⟨if fb.length = 1 then [] else ar_str_trim fb, .MODULE_FRAG⟩ : Module))], [], [], none, []⟩ ⟨.MODULE_NONE, [], [(A, (⟨if vb.length = 1 then [] else ar_str_trim vb, .MODULE_VERT⟩ : Module)), (B, (⟨if fb.length = 1 then [] else ar_str_trim fb, .MODULE_FRAG⟩ : Module))], [], [], none, []⟩
      ((c1src A B P vb fb).length - vb.length - fb.length - 3) (A.length + vb.length + 12) (A.length + vb.length + B.length + 18) (A.length + vb.length + 11)
      (A.length + vb.length + B.length + fb.length + 19) (A.length + vb.length + B.length + fb.length + 24) (A.length + vb.length + B.length + fb.length + 19) (A.length + vb.length + B.length + fb.length + 23)
      (by simp [c1src])
      (by rw [← hjw2]; exact joinWords_no_nl _ hws2)
      (by
        have := split_statement_words (c1src A B P vb fb)
          ('#' :: (("vert").data ++ ' ' :: A) ++ '\n' :: (vb ++ ('#' :: ("end").data ++ '\n' :: ('#' :: (("frag").data ++ ' ' :: B) ++ '\n' :: (fb ++ ['#'])))))
          ('#' :: (("program").data ++ ' ' :: (P ++ ' ' :: (A ++ ' ' :: B))) ++ '\n' :: []) [("end").data] (by simp [c1src, hjw2]) (by simp) hws2
        simpa [hjw2] using this)
      rfl (by simp) hexp4 (by first | (simp [c1src, hv4, he3, hf4, hp7]; omega) | simp [c1src, hv4, he3, hf4, hp7]) (by first | (simp [c1src, hv4, he3, hf4, hp7]; omega) | simp [c1src, hv4, he3, hf4, hp7]) (by first | (simp [c1src, hv4, he3, hf4, hp7]; omega) | simp [c1src, hv4, he3, hf4, hp7]) (by first | (simp [c1src, hv4, he3, hf4, hp7]; omega) | simp [c1src, hv4, he3, hf4, hp7]) (by simp)]
    rw [show (c1src A B P vb fb).length - vb.length - fb.length - 3 =
      ((c1src A B P vb fb).length - vb.length - fb.length - 4) + 1 from (by first | (simp [c1src, hv4, he3, hf4, hp7]; omega) | simp [c1src, hv4, he3, hf4, hp7])]
    rw [parseLoop_dir fs paths (c1src A B P vb fb) ('#' :: (("vert").data ++ ' ' :: A) ++ '\n' :: (vb ++ ('#' :: ("end").data ++ '\n' :: ('#' :: (("frag").data ++ ' ' :: B) ++ '\n' :: (fb ++ ('#' :: ("end").data ++ ['\n'])))))) (("program").data ++ ' ' :: (P ++ ' ' :: (A ++ ' ' :: B))) []
      [("program").data, P, A, B] ⟨.TOKEN_PROGRAM, [], [P, A, B]⟩
      ⟨.MODULE_NONE, [], [(A, (⟨if vb.length = 1 then [] else ar_str_trim vb, .MODULE_VERT⟩ : Module)), (B, (⟨if fb.length = 1 then [] else ar_str_trim fb, .MODULE_FRAG⟩ : Module))], [], [], none, []⟩ ⟨.MODULE_NONE, [], [(A, (⟨if vb.length = 1 then [] else ar_str_trim vb, .MODULE_VERT⟩ : Module)), (B, (⟨if fb.length = 1 then [] else ar_str_trim fb, .MODULE_FRAG⟩ : Module))], [], [],
      some ⟨P, (⟨if vb.length = 1 then [] else ar_str_trim vb, .MODULE_VERT⟩ : Module), (⟨if fb.length = 1 then [] else ar_str_trim fb, .MODULE_FRAG⟩ : Module)⟩, []⟩ ⟨.MODULE_NONE, [], [(A, (⟨if vb.length = 1 then [] else ar_str_trim vb, .MODULE_VERT⟩ : Module)), (B, (⟨if fb.length = 1 then [] else ar_str_trim fb, .MODULE_FRAG⟩ : Module))], [], [],
      some ⟨P, (⟨if vb.length = 1 then [] else ar_str_trim vb, .MODULE_VERT⟩ : Module), (⟨if fb.length = 1 then [] else ar_str_trim fb, .MODULE_FRAG⟩ : Module)⟩, []⟩
      ((c1src A B P vb fb).length - vb.length - fb.length - 4) (A.length + vb.length + B.length + fb.length + 19) (A.length + vb.length + B.length + fb.length + 23) (A.length + vb.length + B.length + 18)
      (A.length + vb.length + B.length + fb.length + 24) ((c1src A B P vb fb).length) (A.length + vb.length + B.length + fb.length + 24) ((c1src A B P vb fb).length - 1)
      (by simp [c1src])
      (by rw [← hjw5]; exact joinWords_no_nl _ hws5)
      (by
        have := split_statement_words (c1src A B P vb fb)
          ('#' :: (("vert").data ++ ' ' :: A) ++ '\n' :: (vb ++ ('#' :: ("end").data ++ '\n' :: ('#' :: (("frag").data ++ ' ' :: B) ++ '\n' :: (fb ++ ('#' :: ("end").data ++ '\n' :: ['#']))))))
          [] [("program").data, P, A, B] (by simp [c1src, hjw5]) (by simp)
          hws5
        simpa [hjw5] using this)
      rfl (by simp) hexp5 (by first | (simp [c1src, hv4, he3, hf4, hp7]; omega) | simp [c1src, hv4, he3, hf4, hp7]) (by first | (simp [c1src, hv4, he3, hf4, hp7]; omega) | simp [c1src, hv4, he3, hf4, hp7]) (by first | (simp [c1src, hv4, he3, hf4, hp7]; omega) | simp [c1src, hv4, he3, hf4, hp7]) (by first | (simp [c1src, hv4, he3, hf4, hp7]; omega) | simp [c1src, hv4, he3, hf4, hp7]) (by simp)]
    rw [parseLoop_exit2 fs paths (c1src A B P vb fb) ((c1src A B P vb fb).length - vb.length - fb.length - 4)
      ((c1src A B P vb fb).length) (A.length + vb.length + B.length + fb.length + 24) ((c1src A B P vb fb).length - 1) (A.length + vb.length + B.length + fb.length + 23) ⟨.MODULE_NONE, [], [(A, (⟨if vb.length = 1 then [] else ar_str_trim vb, .MODULE_VERT⟩ : Module)), (B, (⟨if fb.length = 1 then [] else ar_str_trim fb, .MODULE_FRAG⟩ : Module))], [], [],
      some ⟨P, (⟨if vb.length = 1 then [] else ar_str_trim vb, .MODULE_VERT⟩ : Module), (⟨if fb.length = 1 then [] else ar_str_trim fb, .MODULE_FRAG⟩ : Module)⟩, []⟩ _ (by omega) rfl]
    rfl
  simp only [parse_shader, hparse]

/-- The source `#module N\n b1 #end\n#module N\n b2 #end\n`: two module
definitions closing under the same name. -/
def c6src (N b1 b2 : List Char) : List Char :=
  '#' :: (("module").data ++ ' ' :: N) ++ '\n' :: (b1 ++ ('#' :: ("end").data ++ '\n' :: ('#' :: (("module").data ++ ' ' :: N) ++ '\n' :: (b2 ++ ('#' :: ("end").data ++ '\n' :: [])))))

/-- Claim C6: when two module definitions close under the same name, exactly
one "already been defined" diagnostic is reported and the registry retains
the first definition's body and kind unchanged (the second definition does
not overwrite the first). -/
theorem c6_duplicate_module (fs : FsEnv) (paths : List (List Char))
    (N b1 b2 : List Char) (hN : goodWord N)
    (hb1 : ∀ c ∈ b1, c ≠ '/' ∧ c ≠ '#')
    (hb2 : ∀ c ∈ b2, c ≠ '/' ∧ c ≠ '#') :
    parse fs ((c6src N b1 b2).length + 1) (c6src N b1 b2) paths parser_init =
      some ⟨.MODULE_NONE, [], [(N, (⟨if b1.length = 1 then [] else ar_str_trim b1, .MODULE_MODULE⟩ : Module))], [], [], none,
      [N ++ (": Module has already been defined.").data]⟩ := by
  have hm6 : (("module").data).length = 6 := rfl
  have he3 : (("end").data).length = 3 := rfl
  have hkM : goodWord (("module").data) := ⟨by decide, by decide⟩
  have hkE : goodWord (("end").data) := ⟨by decide, by decide⟩
  have hws1 : ∀ w ∈ [("module").data, N], goodWord w := by
    intro w hw
    simp only [List.mem_cons, List.not_mem_nil, or_false] at hw
    rcases hw with rfl | rfl
    exacts [hkM, hN]
  have hws2 : ∀ w ∈ [("end").data], goodWord w := by
    intro w hw
    simp only [List.mem_singleton] at hw
    subst hw; exact hkE
  have hjw1 : joinWords [("module").data, N] = (("module").data ++ ' ' :: N) := rfl
  have hjw2 : joinWords [("end").data] = ("end").data := rfl
  have hexp1 : expandTokenF fs (fun _ _ _ => none) paths
      ⟨.TOKEN_MODULE, [], [N]⟩ (c6src N b1 b2)
      ⟨([] : List Char).length + 1 + (("module").data ++ ' ' :: N).length, ([] : List Char).length,
        0, 0⟩ parser_init = some ⟨.MODULE_MODULE, [[]], [], [], N, none, []⟩ := by
    simp [expandTokenF, Token.arg, add_module_part, parser_init, spanText]
  have hexp2 : expandTokenF fs (fun _ _ _ => none) paths
      ⟨.TOKEN_END, [], []⟩ (c6src N b1 b2)
      ⟨('#' :: (("module").data ++ ' ' :: N) ++ '\n' :: b1).length + 1 + ("end").data.length, ('#' :: (("module").data ++ ' ' :: N) ++ '\n' :: b1).length,
        N.length + 8, N.length + 8⟩ ⟨.MODULE_MODULE, [[]], [], [], N, none, []⟩ = some ⟨.MODULE_NONE, [], [(N, (⟨if b1.length = 1 then [] else ar_str_trim b1, .MODULE_MODULE⟩ : Module))], [], [], none, []⟩ := by
    have hsp : spanText (c6src N b1 b2) (N.length + 8) (('#' :: (("module").data ++ ' ' :: N) ++ '\n' :: b1).length) = '\n' :: b1 :=
      spanText_shape (c6src N b1 b2) ('#' :: (("module").data ++ ' ' :: N)) ('\n' :: b1)
        ('#' :: ("end").data ++ '\n' :: ('#' :: (("module").data ++ ' ' :: N) ++ '\n' :: (b2 ++ ('#' :: ("end").data ++ '\n' :: []))))
        (N.length + 8) (('#' :: (("module").data ++ ' ' :: N) ++ '\n' :: b1).length) (by simp [c6src]) (by first | (simp [c6src, hm6, he3]; omega) | simp [c6src, hm6, he3]) (by first | (simp [c6src, hm6, he3]; omega) | simp [c6src, hm6, he3])
    have hdf : ('#' :: (("module").data ++ ' ' :: N) ++ '\n' :: b1).length - (N.length + 8) = ('\n' :: b1).length := (by first | (simp [c6src, hm6, he3]; omega) | simp [c6src, hm6, he3])
    have h := expand_end_close fs (fun _ _ _ => none) paths (c6src N b1 b2)
      ⟨('#' :: (("module").data ++ ' ' :: N) ++ '\n' :: b1).length + 1 + ("end").data.length, ('#' :: (("module").data ++ ' ' :: N) ++ '\n' :: b1).length, N.length + 8, N.length + 8⟩
      .MODULE_MODULE [[]] [] [] N none [] ('\n' :: b1) (by simp) hsp hdf rfl
    rw [h]
    simp only [List.nil_append, List.singleton_append]
    rw [vertCode_eq]
  have hexp3 : expandTokenF fs (fun _ _ _ => none) paths
      ⟨.TOKEN_MODULE, [], [N]⟩ (c6src N b1 b2)
      ⟨('#' :: (("module").data ++ ' ' :: N) ++ '\n' :: (b1 ++ ('#' :: ("end").data ++ ['\n']))).length + 1 + (("module").data ++ ' ' :: N).length, ('#' :: (("module").data ++ ' ' :: N) ++ '\n' :: (b1 ++ ('#' :: ("end").data ++ ['\n']))).length,
        N.length + b1.length + 13, N.length + b1.length + 13⟩ ⟨.MODULE_NONE, [], [(N, (⟨if b1.length = 1 then [] else ar_str_trim b1, .MODULE_MODULE⟩ : Module))], [], [], none, []⟩ = some ⟨.MODULE_MODULE, [['\n']], [(N, (⟨if b1.length = 1 then [] else ar_str_trim b1, .MODULE_MODULE⟩ : Module))], [], N, none, []⟩ := by
    have hsp : spanText (c6src N b1 b2) (N.length + b1.length + 13) (('#' :: (("module").data ++ ' ' :: N) ++ '\n' :: (b1 ++ ('#' :: ("end").data ++ ['\n']))).length) = ['\n'] :=
      spanText_shape (c6src N b1 b2) ('#' :: (("module").data ++ ' ' :: N) ++ '\n' :: (b1 ++ '#' :: ("end").data))
        ['\n'] ('#' :: (("module").data ++ ' ' :: N) ++ '\n' :: (b2 ++ ('#' :: ("end").data ++ '\n' :: []))) (N.length + b1.length + 13) (('#' :: (("module").data ++ ' ' :: N) ++ '\n' :: (b1 ++ ('#' :: ("end").data ++ ['\n']))).length)
        (by simp [c6src]) (by first | (simp [c6src, hm6, he3]; omega) | simp [c6src, hm6, he3]) (by first | (simp [c6src, hm6, he3]; omega) | simp [c6src, hm6, he3])
    have hd : (('#' :: (("module").data ++ ' ' :: N) ++ '\n' :: (b1 ++ ('#' :: ("end").data ++ ['\n']))).length) - (N.length + b1.length + 13) ≠ 2 := (by first | (simp [c6src, hm6, he3]; omega) | simp [c6src, hm6, he3])
    have h := expand_module_open fs (fun _ _ _ => none) paths (c6src N b1 b2)
      ⟨('#' :: (("module").data ++ ' ' :: N) ++ '\n' :: (b1 ++ ('#' :: ("end").data ++ ['\n']))).length + 1 + (("module").data ++ ' ' :: N).length, ('#' :: (("module").data ++ ' ' :: N) ++ '\n' :: (b1 ++ ('#' :: ("end").data ++ ['\n']))).length, N.length + b1.length + 13, N.length + b1.length + 13⟩
      [] [(N, (⟨if b1.length = 1 then [] else ar_str_trim b1, .MODULE_MODULE⟩ : Module))] [] [] none [] N ['\n'] hsp hd
    rw [h]
    simp
  have hexp4 : expandTokenF fs (fun _ _ _ => none) paths
      ⟨.TOKEN_END, [], []⟩ (c6src N b1 b2)
      ⟨('#' :: (("module").data ++ ' ' :: N) ++ '\n' :: (b1 ++ ('#' :: ("end").data ++ '\n' :: ('#' :: (("module").data ++ ' ' :: N) ++ '\n' :: b2)))).length + 1 + ("end").data.length, ('#' :: (("module").data ++ ' ' :: N) ++ '\n' :: (b1 ++ ('#' :: ("end").data ++ '\n' :: ('#' :: (("module").data ++ ' ' :: N) ++ '\n' :: b2)))).length,
        N.length + N.length + b1.length + 22, N.length + N.length + b1.length + 22⟩ ⟨.MODULE_MODULE, [['\n']], [(N, (⟨if b1.length = 1 then [] else ar_str_trim b1, .MODULE_MODULE⟩ : Module))], [], N, none, []⟩ = some ⟨.MODULE_NONE, [], [(N, (⟨if b1.length = 1 then [] else ar_str_trim b1, .MODULE_MODULE⟩ : Module))], [], [], none,
      [N ++ (": Module has already been defined.").data]⟩ := by
    have hsp : spanText (c6src N b1 b2) (N.length + N.length + b1.length + 22) (('#' :: (("module").data ++ ' ' :: N) ++ '\n' :: (b1 ++ ('#' :: ("end").data ++ '\n' :: ('#' :: (("module").data ++ ' ' :: N) ++ '\n' :: b2)))).length) = '\n' :: b2 :=
      spanText_shape (c6src N b1 b2)
        ('#' :: (("module").data ++ ' ' :: N) ++ '\n' :: (b1 ++ ('#' :: ("end").data ++ '\n' :: ('#' :: (("module").data ++ ' ' :: N)))))
        ('\n' :: b2) ('#' :: ("end").data ++ '\n' :: [])
        (N.length + N.length + b1.length + 22) (('#' :: (("module").data ++ ' ' :: N) ++ '\n' :: (b1 ++ ('#' :: ("end").data ++ '\n' :: ('#' :: (("module").data ++ ' ' :: N) ++ '\n' :: b2)))).length) (by simp [c6src]) (by first | (simp [c6src, hm6, he3]; omega) | simp [c6src, hm6, he3]) (by first | (simp [c6src, hm6, he3]; omega) | simp [c6src, hm6, he3])
    have hdf : ('#' :: (("module").data ++ ' ' :: N) ++ '\n' :: (b1 ++ ('#' :: ("end").data ++ '\n' :: ('#' :: (("module").data ++ ' ' :: N) ++ '\n' :: b2)))).length - (N.length + N.length + b1.length + 22) = ('\n' :: b2).length := (by first | (simp [c6src, hm6, he3]; omega) | simp [c6src, hm6, he3])
    have h := expand_end_dup fs (fun _ _ _ => none) paths (c6src N b1 b2)
      ⟨('#' :: (("module").data ++ ' ' :: N) ++ '\n' :: (b1 ++ ('#' :: ("end").data ++ '\n' :: ('#' :: (("module").data ++ ' ' :: N) ++ '\n' :: b2)))).length + 1 + ("end").data.length, ('#' :: (("module").data ++ ' ' :: N) ++ '\n' :: (b1 ++ ('#' :: ("end").data ++ '\n' :: ('#' :: (("module").data ++ ' ' :: N) ++ '\n' :: b2)))).length, N.length + N.length + b1.length + 22, N.length + N.length + b1.length + 22⟩
      .MODULE_MODULE [['\n']] [(N, (⟨if b1.length = 1 then [] else ar_str_trim b1, .MODULE_MODULE⟩ : Module))] [] N none [] ('\n' :: b2) (⟨if b1.length = 1 then [] else ar_str_trim b1, .MODULE_MODULE⟩ : Module)
      (by simp) hsp hdf (by simp [hm_lookup])
    rw [h]
    simp
  unfold parse
  rw [parseLoop_dir fs paths (c6src N b1 b2) [] (("module").data ++ ' ' :: N) (b1 ++ ('#' :: ("end").data ++ '\n' :: ('#' :: (("module").data ++ ' ' :: N) ++ '\n' :: (b2 ++ ('#' :: ("end").data ++ '\n' :: [])))))
    [("module").data, N] ⟨.TOKEN_MODULE, [], [N]⟩ parser_init ⟨.MODULE_MODULE, [[]], [], [], N, none, []⟩ ⟨.MODULE_MODULE, [[]], [], [], N, none, []⟩
    ((c6src N b1 b2).length) 0 0 0 0 (N.length + 9) 0 (N.length + 8)
    (by simp [c6src])
    (by rw [← hjw1]; exact joinWords_no_nl _ hws1)
    (by
      have := split_statement_words (c6src N b1 b2) (['#'] : List Char) (b1 ++ ('#' :: ("end").data ++ '\n' :: ('#' :: (("module").data ++ ' ' :: N) ++ '\n' :: (b2 ++ ('#' :: ("end").data ++ '\n' :: [])))))
        [("module").data, N] (by simp [c6src, hjw1]) (by simp) hws1
      simpa [hjw1] using this)
    rfl (by simp) hexp1 (by first | (simp [c6src, hm6, he3]; omega) | simp [c6src, hm6, he3]) (by first | (simp [c6src, hm6, he3]; omega) | simp [c6src, hm6, he3]) (by first | (simp [c6src, hm6, he3]; omega) | simp [c6src, hm6, he3]) (by first | (simp [c6src, hm6, he3]; omega) | simp [c6src, hm6, he3]) (by simp)]
  rw [parseLoop_run_plain2 fs paths b1 (c6src N b1 b2) ('#' :: (("module").data ++ ' ' :: N) ++ ['\n'])
    ('#' :: ("end").data ++ '\n' :: ('#' :: (("module").data ++ ' ' :: N) ++ '\n' :: (b2 ++ ('#' :: ("end").data ++ '\n' :: []))))
    ((c6src N b1 b2).length) ((c6src N b1 b2).length - b1.length) 0 (N.length + 8) 0 (N.length + 9) (N.length + b1.length + 9) ⟨.MODULE_MODULE, [[]], [], [], N, none, []⟩
    (by simp [c6src]) hb1 (by first | (simp [c6src, hm6, he3]; omega) | simp [c6src, hm6, he3]) (by first | (simp [c6src, hm6, he3]; omega) | simp [c6src, hm6, he3]) (by first | (simp [c6src, hm6, he3]; omega) | simp [c6src, hm6, he3])]
  rw [show (c6src N b1 b2).length - b1.length = ((c6src N b1 b2).length - b1.length - 1) + 1 from (by first | (simp [c6src, hm6, he3]; omega) | simp [c6src, hm6, he3])]
  rw [parseLoop_dir fs paths (c6src N b1 b2) ('#' :: (("module").data ++ ' ' :: N) ++ '\n' :: b1) ("end").data
    ('#' :: (("module").data ++ ' ' :: N) ++ '\n' :: (b2 ++ ('#' :: ("end").data ++ '\n' :: [])))
    [("end").data] ⟨.TOKEN_END, [], []⟩ ⟨.MODULE_MODULE, [[]], [], [], N, none, []⟩ ⟨.MODULE_NONE, [], [(N, (⟨if b1.length = 1 then [] else ar_str_trim b1, .MODULE_MODULE⟩ : Module))], [], [], none, []⟩ ⟨.MODULE_NONE, [], [(N, (⟨if b1.length = 1 then [] else ar_str_trim b1, .MODULE_MODULE⟩ : Module))], [], [], none, []⟩
    ((c6src N b1 b2).length - b1.length - 1) 0 (N.length + 8) 0 (N.length + b1.length + 9) (N.length + b1.length + 14)
    (N.length + b1.length + 9) (N.length + b1.length + 13)
    (by simp [c6src])
    (by rw [← hjw2]; exact joinWords_no_nl _ hws2)
    (by
      have := split_statement_words (c6src N b1 b2)
        ('#' :: (("module").data ++ ' ' :: N) ++ '\n' :: (b1 ++ ['#'])) ('#' :: (("module").data ++ ' ' :: N) ++ '\n' :: (b2 ++ ('#' :: ("end").data ++ '\n' :: [])))
        [("end").data] (by simp [c6src, hjw2]) (by simp) hws2
      simpa [hjw2] using this)
    rfl (by simp) hexp2 (by first | (simp [c6src, hm6, he3]; omega) | simp [c6src, hm6, he3]) (by first | (simp [c6src, hm6, he3]; omega) | simp [c6src, hm6, he3]) (by first | (simp [c6src, hm6, he3]; omega) | simp [c6src, hm6, he3]) (by first | (simp [c6src, hm6, he3]; omega) | simp [c6src, hm6, he3]) (by simp)]
  rw [show (c6src N b1 b2).length - b1.length - 1 = ((c6src N b1 b2).length - b1.length - 2) + 1 from (by first | (simp [c6src, hm6, he3]; omega) | simp [c6src, hm6, he3])]
  rw [parseLoop_dir fs paths (c6src N b1 b2) ('#' :: (("module").data ++ ' ' :: N) ++ '\n' :: (b1 ++ ('#' :: ("end").data ++ ['\n']))) (("module").data ++ ' ' :: N) (b2 ++ ('#' :: ("end").data ++ '\n' :: []))
    [("module").data, N] ⟨.TOKEN_MODULE, [], [N]⟩ ⟨.MODULE_NONE, [], [(N, (⟨if b1.length = 1 then [] else ar_str_trim b1, .MODULE_MODULE⟩ : Module))], [], [], none, []⟩ ⟨.MODULE_MODULE, [['\n']], [(N, (⟨if b1.length = 1 then [] else ar_str_trim b1, .MODULE_MODULE⟩ : Module))], [], N, none, []⟩ ⟨.MODULE_MODULE, [['\n']], [(N, (⟨if b1.length = 1 then [] else ar_str_trim b1, .MODULE_MODULE⟩ : Module))], [], N, none, []⟩
    ((c6src N b1 b2).length - b1.length - 2) (N.length + b1.length + 9) (N.length + b1.length + 13) (N.length + 8) (N.length + b1.length + 14)
    (N.length + N.length + b1.length + 23) (N.length + b1.length + 14) (N.length + N.length + b1.length + 22)
    (by simp [c6src])
    (by rw [← hjw1]; exact joinWords_no_nl _ hws1)
    (by
      have := split_statement_words (c6src N b1 b2)
        ('#' :: (("module").data ++ ' ' :: N) ++ '\n' :: (b1 ++ ('#' :: ("end").data ++ '\n' :: ['#'])))
        (b2 ++ ('#' :: ("end").data ++ '\n' :: [])) [("module").data, N]
        (by simp [c6src, hjw1]) (by simp) hws1
      simpa [hjw1] using this)
    rfl (by simp) hexp3 (by first | (simp [c6src, hm6, he3]; omega) | simp [c6src, hm6, he3]) (by first | (simp [c6src, hm6, he3]; omega) | simp [c6src, hm6, he3]) (by first | (simp [c6src, hm6, he3]; omega) | simp [c6src, hm6, he3]) (by first | (simp [c6src, hm6, he3]; omega) | simp [c6src, hm6, he3]) (by simp)]
  rw [parseLoop_run_plain2 fs paths b2 (c6src N b1 b2) ('#' :: (("module").data ++ ' ' :: N) ++ '\n' :: (b1 ++ ('#' :: ("end").data ++ '\n' :: ('#' :: (("module").data ++ ' ' :: N) ++ ['\n']))))
    ('#' :: ("end").data ++ '\n' :: [])
    ((c6src N b1 b2).length - b1.length - 2) ((c6src N b1 b2).length - b1.length - 2 - b2.length)
    (N.length + b1.length + 14) (N.length + N.length + b1.length + 22) (N.length + b1.length + 13) (N.length + N.length + b1.length + 23) (N.length + N.length + b1.length + b2.length + 23) ⟨.MODULE_MODULE, [['\n']], [(N, (⟨if b1.length = 1 then [] else ar_str_trim b1, .MODULE_MODULE⟩ : Module))], [], N, none, []⟩
    (by simp [c6src]) hb2 (by first | (simp [c6src, hm6, he3]; omega) | simp [c6src, hm6, he3]) (by first | (simp [c6src, hm6, he3]; omega) | simp [c6src, hm6, he3]) (by first | (simp [c6src, hm6, he3]; omega) | simp [c6src, hm6, he3])]
  rw [show (c6src N b1 b2).length - b1.length - 2 - b2.length =
    ((c6src N b1 b2).length - b1.length - b2.length - 3) + 1 from (by first | (simp [c6src, hm6, he3]; omega) | simp [c6src, hm6, he3])]
  rw [parseLoop_dir fs paths (c6src N b1 b2) ('#' :: (("module").data ++ ' ' :: N) ++ '\n' :: (b1 ++ ('#' :: ("end").data ++ '\n' :: ('#' :: (("module").data ++ ' ' :: N) ++ '\n' :: b2)))) ("end").data []
    [("end").data] ⟨.TOKEN_END, [], []⟩ ⟨.MODULE_MODULE, [['\n']], [(N, (⟨if b1.length = 1 then [] else ar_str_trim b1, .MODULE_MODULE⟩ : Module))], [], N, none, []⟩ ⟨.MODULE_NONE, [], [(N, (⟨if b1.length = 1 then [] else ar_str_trim b1, .MODULE_MODULE⟩ : Module))], [], [], none,
      [N ++ (": Module has already been defined.").data]⟩ ⟨.MODULE_NONE, [], [(N, (⟨if b1.length = 1 then [] else ar_str_trim b1, .MODULE_MODULE⟩ : Module))], [], [], none,
      [N ++ (": Module has already been defined.").data]⟩
    ((c6src N b1 b2).length - b1.length - b2.length - 3) (N.length + b1.length + 14) (N.length + N.length + b1.length + 22) (N.length + b1.length + 13)
    (N.length + N.length + b1.length + b2.length + 23) ((c6src N b1 b2).length) (N.length + N.length + b1.length + b2.length + 23) ((c6src N b1 b2).length - 1)
    (by simp [c6src])
    (by rw [← hjw2]; exact joinWords_no_nl _ hws2)
    (by
      have := split_statement_words (c6src N b1 b2)
        ('#' :: (("module").data ++ ' ' :: N) ++ '\n' :: (b1 ++ ('#' :: ("end").data ++ '\n' :: ('#' :: (("module").data ++ ' ' :: N) ++ '\n' :: (b2 ++ ['#'])))))
        [] [("end").data] (by simp [c6src, hjw2]) (by simp) hws2
      simpa [hjw2] using this)
    rfl (by simp) hexp4 (by first | (simp [c6src, hm6, he3]; omega) | simp [c6src, hm6, he3]) (by first | (simp [c6src, hm6, he3]; omega) | simp [c6src, hm6, he3]) (by first | (simp [c6src, hm6, he3]; omega) | simp [c6src, hm6, he3]) (by first | (simp [c6src, hm6, he3]; omega) | simp [c6src, hm6, he3]) (by simp)]
  rw [parseLoop_exit2 fs paths (c6src N b1 b2) ((c6src N b1 b2).length - b1.length - b2.length - 3)
    ((c6src N b1 b2).length) (N.length + N.length + b1.length + b2.length + 23) ((c6src N b1 b2).length - 1) (N.length + N.length + b1.length + 22) ⟨.MODULE_NONE, [], [(N, (⟨if b1.length = 1 then [] else ar_str_trim b1, .MODULE_MODULE⟩ : Module))], [], [], none,
      [N ++ (": Module has already been defined.").data]⟩ _ (by omega) rfl]
  rfl

/-- Witness for `c6_duplicate_module` at `N = mod`, `b1 = X\n`, `b2 = Y\n`. -/
theorem c6_witness :
    goodWord (("mod").data) ∧
    parse emptyFs ((c6src ("mod").data ("X\n").data ("Y\n").data).length + 1)
      (c6src ("mod").data ("X\n").data ("Y\n").data) [] parser_init =
      some ⟨.MODULE_NONE, [],
        [(("mod").data, ⟨if (("X\n").data).length = 1 then []
          else ar_str_trim (("X\n").data), .MODULE_MODULE⟩)],
        [], [], none,
        [("mod").data ++ (": Module has already been defined.").data]⟩ :=
  ⟨⟨by decide, by decide⟩,
    c6_duplicate_module emptyFs [] ("mod").data ("X\n").data ("Y\n").data
      ⟨by decide, by decide⟩ (by decide) (by decide)⟩

/-- Witness for `c1_program_assembly`: the worked example of the spec
(`#vert foo` / `#frag bar` / `#program prog foo bar` with bodies
`void main(){}`). -/
theorem c1_witness :
    goodWord (("foo").data) ∧ (("foo").data ≠ ("bar").data) ∧
    parse_shader emptyFs
      (c1src ("foo").data ("bar").data ("prog").data
        ("void main()\x7b\x7d\n").data ("void main()\x7b\x7d\n").data) [] =
      some (⟨⟨("prog").data,
        if (("void main()\x7b\x7d\n").data).length = 1 then []
          else ar_str_trim (("void main()\x7b\x7d\n").data),
        if (("void main()\x7b\x7d\n").data).length = 1 then []
          else ar_str_trim (("void main()\x7b\x7d\n").data)⟩, []⟩, []) :=
  ⟨⟨by decide, by decide⟩, by decide,
    c1_program_assembly emptyFs [] ("foo").data ("bar").data ("prog").data
      ("void main()\x7b\x7d\n").data ("void main()\x7b\x7d\n").data
      ⟨by decide, by decide⟩ ⟨by decide, by decide⟩ ⟨by decide, by decide⟩
      (by decide) (by decide) (by decide)⟩

theorem dropWhile_append_cons (p : Char → Bool) (c : Char) (z : List Char)
    (hc : p c = false) :
    ∀ u : List Char, ∃ u2, List.dropWhile p (u ++ c :: z) = u2 ++ c :: z := by
  intro u
  induction u with
  | nil => exact ⟨[], by simp [List.dropWhile_cons, hc]⟩
  | cons x u ih =>
    cases hx : p x with
    | true =>
      obtain ⟨u2, hu⟩ := ih
      exact ⟨u2, by simp [List.dropWhile_cons, hx, hu]⟩
    | false => exact ⟨x :: u, by simp [List.dropWhile_cons, hx]⟩

/-- A middle segment that starts and ends with a non-whitespace character
survives `ar_str_trim` intact. -/
theorem trim_middle (u v m1 : List Char) (c : Char)
    (hc : ar_char_is_whitespace c = false)
    (hlast : ∀ d, (c :: m1).getLast? = some d →
      ar_char_is_whitespace d = false) :
    ∃ x y, ar_str_trim (u ++ (c :: m1) ++ v) = x ++ (c :: m1) ++ y := by
  obtain ⟨u2, h1⟩ := dropWhile_append_cons ar_char_is_whitespace c (m1 ++ v) hc u
  obtain ⟨d, R, hrev⟩ : ∃ d R, (c :: m1).reverse = d :: R := by
    cases hr : (c :: m1).reverse with
    | nil =>
      have hlen : (c :: m1).length = 0 := by
        rw [← List.length_reverse, hr]
        rfl
      simp at hlen
    | cons d R => exact ⟨d, R, rfl⟩
  have hd : ar_char_is_whitespace d = false := by
    apply hlast
    rw [← List.head?_reverse, hrev]
    rfl
  obtain ⟨v2, h2⟩ := dropWhile_append_cons ar_char_is_whitespace d
    (R ++ u2.reverse) hd v.reverse
  refine ⟨u2, v2.reverse, ?_⟩
  have hm : c :: m1 = R.reverse ++ [d] := by
    rw [← List.reverse_reverse (c :: m1), hrev]
    simp
  unfold ar_str_trim
  rw [show u ++ (c :: m1) ++ v = u ++ c :: (m1 ++ v) from by simp]
  rw [h1]
  rw [show u2 ++ c :: (m1 ++ v) = (u2 ++ (c :: m1)) ++ v from by simp]
  rw [List.reverse_append]
  rw [show (u2 ++ (c :: m1)).reverse = d :: (R ++ u2.reverse) from by
    rw [List.reverse_append, hrev]; simp]
  rw [h2]
  rw [hm]
  simp

theorem joinWords_ne_nil (ws : List (List Char)) (hne : ws ≠ [])
    (h : ∀ x ∈ ws, goodWord x) : joinWords ws ≠ [] := by
  cases ws with
  | nil => exact absurd rfl hne
  | cons w ws2 =>
    cases ws2 with
    | nil =>
      have := (h w (by simp)).1
      simpa [joinWords] using this
    | cons w2 ws3 => simp [joinWords]

theorem joinWords_getLast_not_ws (ws : List (List Char)) :
    (∀ x ∈ ws, goodWord x) → ws ≠ [] →
    ∀ d, (joinWords ws).getLast? = some d →
      ar_char_is_whitespace d = false := by
  induction ws with
  | nil => intro _ hne; exact absurd rfl hne
  | cons w ws2 ih =>
    intro hg _
    cases ws2 with
    | nil =>
      intro d hd
      simp only [joinWords] at hd
      exact (hg w (by simp)).2 d (List.mem_of_mem_getLast? hd)
    | cons w2 ws3 =>
      intro d hd
      simp only [joinWords] at hd
      have hne2 : joinWords (w2 :: ws3) ≠ [] :=
        joinWords_ne_nil _ (by simp) (fun x hx => hg x (by simp [hx]))
      have e1 : (w ++ ' ' :: joinWords (w2 :: ws3)).getLast? =
          (' ' :: joinWords (w2 :: ws3)).getLast? :=
        List.getLast?_append_of_ne_nil w (by simp)
      have e2 : (' ' :: joinWords (w2 :: ws3)).getLast? =
          (joinWords (w2 :: ws3)).getLast? := by
        rw [show (' ' :: joinWords (w2 :: ws3)) =
          [' '] ++ joinWords (w2 :: ws3) from rfl]
        exact List.getLast?_append_of_ne_nil [' '] hne2
      rw [e1, e2] at hd
      exact ih (fun x hx => hg x (by simp [hx])) (by simp) d hd

theorem hash_line_getLast_not_ws (ws : List (List Char))
    (hne : ws ≠ []) (hg : ∀ x ∈ ws, goodWord x) :
    ∀ d, ('#' :: joinWords ws).getLast? = some d →
      ar_char_is_whitespace d = false := by
  intro d hd
  have hne2 := joinWords_ne_nil ws hne hg
  rw [show ('#' :: joinWords ws) = ['#'] ++ joinWords ws from rfl,
    List.getLast?_append_of_ne_nil ['#'] hne2] at hd
  exact joinWords_getLast_not_ws ws hg hne d hd

/-- The source of the C8 family: a vert block whose body contains one
embedded directive line whose statement is the word list `w :: ls` joined by
single spaces. -/
def c8src (A w : List Char) (ls : List (List Char)) (b1 b2 : List Char) :
    List Char :=
  '#' :: (("vert").data ++ ' ' :: A) ++ '\n' :: (b1 ++ ('#' :: joinWords (w :: ls) ++ '\n' :: (b2 ++ ('#' :: ("end").data ++ '\n' :: []))))

/-- Claim C8: a directive line inside an open module whose leading word is a
native-GLSL keyword is preserved verbatim (with its leading `#`) inside the
module's final body, and no diagnostic is produced; a directive line whose
leading word is in neither keyword set produces exactly one
"word: Invalid token." diagnostic and contributes nothing to the body (the
body is exactly the trim of the two surrounding text spans). The
surrounding body pieces are directive-free text whose spans do not hit the
length-2 collapse rule. -/
theorem c8_glsl_verbatim_error_dropped :
    (∀ (fs : FsEnv) (paths : List (List Char)) (A w : List Char)
        (ls : List (List Char)) (b1 b2 : List Char),
      goodWord A → goodWord w → (∀ x ∈ ls, goodWord x) →
      match_token_type w = TokenType.TOKEN_GLSL →
      (∀ c ∈ b1, c ≠ '/' ∧ c ≠ '#') →
      (∀ c ∈ b2, c ≠ '/' ∧ c ≠ '#') →
      b1.length ≠ 1 → b2.length ≠ 1 →
      ∃ x y, parse fs ((c8src A w ls b1 b2).length + 1) (c8src A w ls b1 b2) paths parser_init =
        some ⟨.MODULE_NONE, [],
          [(A, (⟨x ++ ('#' :: joinWords (w :: ls)) ++ y, .MODULE_VERT⟩ : Module))],
          [], [], none, []⟩) ∧
    (∀ (fs : FsEnv) (paths : List (List Char)) (A w : List Char)
        (ls : List (List Char)) (b1 b2 : List Char),
      goodWord A → goodWord w → (∀ x ∈ ls, goodWord x) →
      match_token_type w = TokenType.TOKEN_ERROR →
      (∀ c ∈ b1, c ≠ '/' ∧ c ≠ '#') →
      (∀ c ∈ b2, c ≠ '/' ∧ c ≠ '#') →
      b1.length ≠ 1 → b2.length ≠ 1 →
      parse fs ((c8src A w ls b1 b2).length + 1) (c8src A w ls b1 b2) paths parser_init =
        some ⟨.MODULE_NONE, [],
          [(A, (⟨ar_str_trim ('\n' :: (b1 ++ '\n' :: b2)), .MODULE_VERT⟩ : Module))],
          [], [], none, [(w ++ (": Invalid token.").data)]⟩) := by
  constructor
  · intro fs paths A w ls b1 b2 hA hw hls hglsl hb1 hb2 hb1len hb2len
    have hv4 : (("vert").data).length = 4 := rfl
    have he3 : (("end").data).length = 3 := rfl
    have hkV : goodWord (("vert").data) := ⟨by decide, by decide⟩
    have hkE : goodWord (("end").data) := ⟨by decide, by decide⟩
    have hws1 : ∀ x ∈ [("vert").data, A], goodWord x := by
      intro x hx
      simp only [List.mem_cons, List.not_mem_nil, or_false] at hx
      rcases hx with rfl | rfl
      exacts [hkV, hA]
    have hwsE : ∀ x ∈ [("end").data], goodWord x := by
      intro x hx
      simp only [List.mem_singleton] at hx
      subst hx; exact hkE
    have hwsline : ∀ x ∈ (w :: ls), goodWord x := by
      intro x hx
      simp only [List.mem_cons] at hx
      rcases hx with rfl | hx
      · exact hw
      · exact hls x hx
    have hjw1 : joinWords [("vert").data, A] = (("vert").data ++ ' ' :: A) := rfl
    have hjwE : joinWords [("end").data] = ("end").data := rfl
    have hexp1 : expandTokenF fs (fun _ _ _ => none) paths
        ⟨.TOKEN_VERT, [], [A]⟩ (c8src A w ls b1 b2)
        ⟨([] : List Char).length + 1 + (("vert").data ++ ' ' :: A).length, ([] : List Char).length,
          0, 0⟩ parser_init = some ⟨.MODULE_VERT, [[]], [], [], A, none, []⟩ := by
      simp [expandTokenF, Token.arg, add_module_part, parser_init, spanText]
    have hexp2 : expandTokenF fs (fun _ _ _ => none) paths
        ⟨.TOKEN_GLSL, [], []⟩ (c8src A w ls b1 b2)
        ⟨('#' :: (("vert").data ++ ' ' :: A) ++ '\n' :: b1).length + 1 + (joinWords (w :: ls)).length, ('#' :: (("vert").data ++ ' ' :: A) ++ '\n' :: b1).length, A.length + 6, A.length + 6⟩ ⟨.MODULE_VERT, [[]], [], [], A, none, []⟩ =
        some ⟨.MODULE_VERT, [[], '\n' :: b1], [], [], A, none, []⟩ := by
      have hsp : spanText (c8src A w ls b1 b2) (A.length + 6) (('#' :: (("vert").data ++ ' ' :: A) ++ '\n' :: b1).length) = '\n' :: b1 :=
        spanText_shape (c8src A w ls b1 b2) ('#' :: (("vert").data ++ ' ' :: A)) ('\n' :: b1) ('#' :: joinWords (w :: ls) ++ '\n' :: (b2 ++ ('#' :: ("end").data ++ '\n' :: [])))
          (A.length + 6) (('#' :: (("vert").data ++ ' ' :: A) ++ '\n' :: b1).length) (by simp [c8src]) (by first | (simp [c8src, hv4, he3]; omega) | simp [c8src, hv4, he3]) (by first | (simp [c8src, hv4, he3]; omega) | simp [c8src, hv4, he3])
      have hd : (('#' :: (("vert").data ++ ' ' :: A) ++ '\n' :: b1).length) - (A.length + 6) ≠ 2 := (by first | (simp [c8src, hv4, he3]; omega) | simp [c8src, hv4, he3])
      have h := expand_glsl_open fs (fun _ _ _ => none) paths (c8src A w ls b1 b2)
        ⟨('#' :: (("vert").data ++ ' ' :: A) ++ '\n' :: b1).length + 1 + (joinWords (w :: ls)).length, ('#' :: (("vert").data ++ ' ' :: A) ++ '\n' :: b1).length, A.length + 6, A.length + 6⟩
        .MODULE_VERT [[]] [] [] A none [] ('\n' :: b1) (by simp) hsp hd
      rw [h]
      simp
    have hexp3 : expandTokenF fs (fun _ _ _ => none) paths
        ⟨.TOKEN_END, [], []⟩ (c8src A w ls b1 b2)
        ⟨('#' :: (("vert").data ++ ' ' :: A) ++ '\n' :: (b1 ++ ('#' :: joinWords (w :: ls) ++ '\n' :: b2))).length + 1 + ("end").data.length, ('#' :: (("vert").data ++ ' ' :: A) ++ '\n' :: (b1 ++ ('#' :: joinWords (w :: ls) ++ '\n' :: b2))).length,
          A.length + b1.length + (joinWords (w :: ls)).length + 8, A.length + b1.length + (joinWords (w :: ls)).length + 8⟩ ⟨.MODULE_VERT, [[], '\n' :: b1, '#' :: (joinWords (w :: ls) ++ ['\n'])], [], [], A, none, []⟩ = some ⟨.MODULE_NONE, [], [(A, (⟨ar_str_trim (ar_str_list_join [[], '\n' :: b1, '#' :: (joinWords (w :: ls) ++ ['\n']), '\n' :: b2]), .MODULE_VERT⟩ : Module))], [], [], none, []⟩ := by
      have hsp : spanText (c8src A w ls b1 b2) (A.length + b1.length + (joinWords (w :: ls)).length + 8) (('#' :: (("vert").data ++ ' ' :: A) ++ '\n' :: (b1 ++ ('#' :: joinWords (w :: ls) ++ '\n' :: b2))).length) = '\n' :: b2 :=
        spanText_shape (c8src A w ls b1 b2) ('#' :: (("vert").data ++ ' ' :: A) ++ '\n' :: (b1 ++ ('#' :: joinWords (w :: ls)))) ('\n' :: b2) ('#' :: ("end").data ++ '\n' :: [])
          (A.length + b1.length + (joinWords (w :: ls)).length + 8) (('#' :: (("vert").data ++ ' ' :: A) ++ '\n' :: (b1 ++ ('#' :: joinWords (w :: ls) ++ '\n' :: b2))).length) (by simp [c8src]) (by first | (simp [c8src, hv4, he3]; omega) | simp [c8src, hv4, he3]) (by first | (simp [c8src, hv4, he3]; omega) | simp [c8src, hv4, he3])
      have hdf : ('#' :: (("vert").data ++ ' ' :: A) ++ '\n' :: (b1 ++ ('#' :: joinWords (w :: ls) ++ '\n' :: b2))).length - (A.length + b1.length + (joinWords (w :: ls)).length + 8) = ('\n' :: b2).length := (by first | (simp [c8src, hv4, he3]; omega) | simp [c8src, hv4, he3])
      have h := expand_end_close fs (fun _ _ _ => none) paths (c8src A w ls b1 b2)
        ⟨('#' :: (("vert").data ++ ' ' :: A) ++ '\n' :: (b1 ++ ('#' :: joinWords (w :: ls) ++ '\n' :: b2))).length + 1 + ("end").data.length, ('#' :: (("vert").data ++ ' ' :: A) ++ '\n' :: (b1 ++ ('#' :: joinWords (w :: ls) ++ '\n' :: b2))).length, A.length + b1.length + (joinWords (w :: ls)).length + 8, A.length + b1.length + (joinWords (w :: ls)).length + 8⟩
        .MODULE_VERT [[], '\n' :: b1, '#' :: (joinWords (w :: ls) ++ ['\n'])] [] [] A none []
        ('\n' :: b2) (by simp) hsp hdf rfl
      rw [h]
      have h2 : ¬ (('\n' :: b2).length = 2) := by
        first | (simp; omega) | simp
      simp [h2, hb2len]
    have heq : parse fs ((c8src A w ls b1 b2).length + 1) (c8src A w ls b1 b2) paths parser_init = some ⟨.MODULE_NONE, [], [(A, (⟨ar_str_trim (ar_str_list_join [[], '\n' :: b1, '#' :: (joinWords (w :: ls) ++ ['\n']), '\n' :: b2]), .MODULE_VERT⟩ : Module))], [], [], none, []⟩ := by
      unfold parse
      rw [parseLoop_dir fs paths (c8src A w ls b1 b2) [] (("vert").data ++ ' ' :: A) (b1 ++ ('#' :: joinWords (w :: ls) ++ '\n' :: (b2 ++ ('#' :: ("end").data ++ '\n' :: []))))
        [("vert").data, A] ⟨.TOKEN_VERT, [], [A]⟩ parser_init ⟨.MODULE_VERT, [[]], [], [], A, none, []⟩ ⟨.MODULE_VERT, [[]], [], [], A, none, []⟩
        ((c8src A w ls b1 b2).length) 0 0 0 0 (A.length + 7) 0 (A.length + 6)
        (by simp [c8src])
        (by rw [← hjw1]; exact joinWords_no_nl _ hws1)
        (by
          have := split_statement_words (c8src A w ls b1 b2) (['#'] : List Char) (b1 ++ ('#' :: joinWords (w :: ls) ++ '\n' :: (b2 ++ ('#' :: ("end").data ++ '\n' :: []))))
            [("vert").data, A] (by simp [c8src, hjw1]) (by simp) hws1
          simpa [hjw1] using this)
        rfl (by simp) hexp1 (by first | (simp [c8src, hv4, he3]; omega) | simp [c8src, hv4, he3]) (by first | (simp [c8src, hv4, he3]; omega) | simp [c8src, hv4, he3]) (by first | (simp [c8src, hv4, he3]; omega) | simp [c8src, hv4, he3]) (by first | (simp [c8src, hv4, he3]; omega) | simp [c8src, hv4, he3]) (by simp)]
      rw [parseLoop_run_plain2 fs paths b1 (c8src A w ls b1 b2) ('#' :: (("vert").data ++ ' ' :: A) ++ ['\n']) ('#' :: joinWords (w :: ls) ++ '\n' :: (b2 ++ ('#' :: ("end").data ++ '\n' :: [])))
        ((c8src A w ls b1 b2).length) ((c8src A w ls b1 b2).length - b1.length) 0 (A.length + 6) 0 (A.length + 7) (A.length + b1.length + 7) ⟨.MODULE_VERT, [[]], [], [], A, none, []⟩
        (by simp [c8src]) hb1 (by first | (simp [c8src, hv4, he3]; omega) | simp [c8src, hv4, he3]) (by first | (simp [c8src, hv4, he3]; omega) | simp [c8src, hv4, he3]) (by first | (simp [c8src, hv4, he3]; omega) | simp [c8src, hv4, he3])]
      rw [show (c8src A w ls b1 b2).length - b1.length = ((c8src A w ls b1 b2).length - b1.length - 1) + 1 from (by first | (simp [c8src, hv4, he3]; omega) | simp [c8src, hv4, he3])]
      rw [parseLoop_dir fs paths (c8src A w ls b1 b2) ('#' :: (("vert").data ++ ' ' :: A) ++ '\n' :: b1) (joinWords (w :: ls)) (b2 ++ ('#' :: ("end").data ++ '\n' :: []))
        (w :: ls) ⟨.TOKEN_GLSL, [], []⟩ ⟨.MODULE_VERT, [[]], [], [], A, none, []⟩ ⟨.MODULE_VERT, [[], '\n' :: b1], [], [], A, none, []⟩ ⟨.MODULE_VERT, [[], '\n' :: b1, '#' :: (joinWords (w :: ls) ++ ['\n'])], [], [], A, none, []⟩
        ((c8src A w ls b1 b2).length - b1.length - 1) 0 (A.length + 6) 0 (A.length + b1.length + 7) (A.length + b1.length + (joinWords (w :: ls)).length + 9) (A.length + b1.length + 7) (A.length + b1.length + (joinWords (w :: ls)).length + 8)
        (by simp [c8src])
        (joinWords_no_nl (w :: ls) hwsline)
        (by
          have := split_statement_words (c8src A w ls b1 b2) (('#' :: (("vert").data ++ ' ' :: A) ++ '\n' :: b1) ++ ['#']) (b2 ++ ('#' :: ("end").data ++ '\n' :: []))
            (w :: ls) (by simp [c8src]) (by simp) hwsline
          simpa using this)
        (by simp [tokenize_statement_list, hglsl]) (by simp) hexp2 (by first | (simp [c8src, hv4, he3]; omega) | simp [c8src, hv4, he3]) (by first | (simp [c8src, hv4, he3]; omega) | simp [c8src, hv4, he3]) (by first | (simp [c8src, hv4, he3]; omega) | simp [c8src, hv4, he3]) (by first | (simp [c8src, hv4, he3]; omega) | simp [c8src, hv4, he3]) (by simp)]
      rw [parseLoop_run_plain2 fs paths b2 (c8src A w ls b1 b2) ('#' :: (("vert").data ++ ' ' :: A) ++ '\n' :: (b1 ++ ('#' :: joinWords (w :: ls) ++ ['\n']))) ('#' :: ("end").data ++ '\n' :: [])
        ((c8src A w ls b1 b2).length - b1.length - 1) ((c8src A w ls b1 b2).length - b1.length - 1 - b2.length)
        (A.length + b1.length + 7) (A.length + b1.length + (joinWords (w :: ls)).length + 8) (A.length + 6) (A.length + b1.length + (joinWords (w :: ls)).length + 9) (A.length + b1.length + (joinWords (w :: ls)).length + b2.length + 9) ⟨.MODULE_VERT, [[], '\n' :: b1, '#' :: (joinWords (w :: ls) ++ ['\n'])], [], [], A, none, []⟩
        (by simp [c8src]) hb2 (by first | (simp [c8src, hv4, he3]; omega) | simp [c8src, hv4, he3]) (by first | (simp [c8src, hv4, he3]; omega) | simp [c8src, hv4, he3]) (by first | (simp [c8src, hv4, he3]; omega) | simp [c8src, hv4, he3])]
      rw [show (c8src A w ls b1 b2).length - b1.length - 1 - b2.length =
        ((c8src A w ls b1 b2).length - b1.length - b2.length - 2) + 1 from (by first | (simp [c8src, hv4, he3]; omega) | simp [c8src, hv4, he3])]
      rw [parseLoop_dir fs paths (c8src A w ls b1 b2) ('#' :: (("vert").data ++ ' ' :: A) ++ '\n' :: (b1 ++ ('#' :: joinWords (w :: ls) ++ '\n' :: b2))) ("end").data []
        [("end").data] ⟨.TOKEN_END, [], []⟩ ⟨.MODULE_VERT, [[], '\n' :: b1, '#' :: (joinWords (w :: ls) ++ ['\n'])], [], [], A, none, []⟩ ⟨.MODULE_NONE, [], [(A, (⟨ar_str_trim (ar_str_list_join [[], '\n' :: b1, '#' :: (joinWords (w :: ls) ++ ['\n']), '\n' :: b2]), .MODULE_VERT⟩ : Module))], [], [], none, []⟩ ⟨.MODULE_NONE, [], [(A, (⟨ar_str_trim (ar_str_list_join [[], '\n' :: b1, '#' :: (joinWords (w :: ls) ++ ['\n']), '\n' :: b2]), .MODULE_VERT⟩ : Module))], [], [], none, []⟩
        ((c8src A w ls b1 b2).length - b1.length - b2.length - 2) (A.length + b1.length + 7) (A.length + b1.length + (joinWords (w :: ls)).length + 8) (A.length + 6)
        (A.length + b1.length + (joinWords (w :: ls)).length + b2.length + 9) ((c8src A w ls b1 b2).length) (A.length + b1.length + (joinWords (w :: ls)).length + b2.length + 9) ((c8src A w ls b1 b2).length - 1)
        (by simp [c8src])
        (by rw [← hjwE]; exact joinWords_no_nl _ hwsE)
        (by
          have := split_statement_words (c8src A w ls b1 b2)
            (('#' :: (("vert").data ++ ' ' :: A) ++ '\n' :: (b1 ++ ('#' :: joinWords (w :: ls) ++ ['\n']))) ++ (b2 ++ ['#'])) []
            [("end").data] (by simp [c8src, hjwE]) (by simp) hwsE
          simpa [hjwE] using this)
        rfl (by simp) hexp3 (by first | (simp [c8src, hv4, he3]; omega) | simp [c8src, hv4, he3]) (by first | (simp [c8src, hv4, he3]; omega) | simp [c8src, hv4, he3]) (by first | (simp [c8src, hv4, he3]; omega) | simp [c8src, hv4, he3]) (by first | (simp [c8src, hv4, he3]; omega) | simp [c8src, hv4, he3]) (by simp)]
      rw [parseLoop_exit2 fs paths (c8src A w ls b1 b2) ((c8src A w ls b1 b2).length - b1.length - b2.length - 2)
        ((c8src A w ls b1 b2).length) (A.length + b1.length + (joinWords (w :: ls)).length + b2.length + 9) ((c8src A w ls b1 b2).length - 1) (A.length + b1.length + (joinWords (w :: ls)).length + 8) ⟨.MODULE_NONE, [], [(A, (⟨ar_str_trim (ar_str_list_join [[], '\n' :: b1, '#' :: (joinWords (w :: ls) ++ ['\n']), '\n' :: b2]), .MODULE_VERT⟩ : Module))], [], [], none, []⟩ _ (by omega) rfl]
      rfl
    have hjoin : ar_str_list_join [[], '\n' :: b1, '#' :: (joinWords (w :: ls) ++ ['\n']), '\n' :: b2] =
        ('\n' :: b1) ++ ('#' :: joinWords (w :: ls)) ++ ('\n' :: '\n' :: b2) := by
      simp [ar_str_list_join]
    obtain ⟨x, y, hxy⟩ := trim_middle ('\n' :: b1) ('\n' :: '\n' :: b2)
      (joinWords (w :: ls)) '#' (by decide)
      (hash_line_getLast_not_ws (w :: ls) (by simp) hwsline)
    refine ⟨x, y, ?_⟩
    rw [heq]
    rw [show ar_str_trim (ar_str_list_join [[], '\n' :: b1, '#' :: (joinWords (w :: ls) ++ ['\n']), '\n' :: b2]) = x ++ ('#' :: joinWords (w :: ls)) ++ y from by rw [hjoin]; exact hxy]
  · intro fs paths A w ls b1 b2 hA hw hls herr hb1 hb2 hb1len hb2len
    have hv4 : (("vert").data).length = 4 := rfl
    have he3 : (("end").data).length = 3 := rfl
    have hkV : goodWord (("vert").data) := ⟨by decide, by decide⟩
    have hkE : goodWord (("end").data) := ⟨by decide, by decide⟩
    have hws1 : ∀ x ∈ [("vert").data, A], goodWord x := by
      intro x hx
      simp only [List.mem_cons, List.not_mem_nil, or_false] at hx
      rcases hx with rfl | rfl
      exacts [hkV, hA]
    have hwsE : ∀ x ∈ [("end").data], goodWord x := by
      intro x hx
      simp only [List.mem_singleton] at hx
      subst hx; exact hkE
    have hwsline : ∀ x ∈ (w :: ls), goodWord x := by
      intro x hx
      simp only [List.mem_cons] at hx
      rcases hx with rfl | hx
      · exact hw
      · exact hls x hx
    have hjw1 : joinWords [("vert").data, A] = (("vert").data ++ ' ' :: A) := rfl
    have hjwE : joinWords [("end").data] = ("end").data := rfl
    have hexp1 : expandTokenF fs (fun _ _ _ => none) paths
        ⟨.TOKEN_VERT, [], [A]⟩ (c8src A w ls b1 b2)
        ⟨([] : List Char).length + 1 + (("vert").data ++ ' ' :: A).length, ([] : List Char).length,
          0, 0⟩ parser_init = some ⟨.MODULE_VERT, [[]], [], [], A, none, []⟩ := by
      simp [expandTokenF, Token.arg, add_module_part, parser_init, spanText]
    have hexp2 : expandTokenF fs (fun _ _ _ => none) paths
        ⟨.TOKEN_ERROR, w ++ (": Invalid token.").data, []⟩ (c8src A w ls b1 b2)
        ⟨('#' :: (("vert").data ++ ' ' :: A) ++ '\n' :: b1).length + 1 + (joinWords (w :: ls)).length, ('#' :: (("vert").data ++ ' ' :: A) ++ '\n' :: b1).length, A.length + 6, A.length + 6⟩ ⟨.MODULE_VERT, [[]], [], [], A, none, []⟩ =
        some ⟨.MODULE_VERT, [[], '\n' :: b1], [], [], A, none, [(w ++ (": Invalid token.").data)]⟩ := by
      have hsp : spanText (c8src A w ls b1 b2) (A.length + 6) (('#' :: (("vert").data ++ ' ' :: A) ++ '\n' :: b1).length) = '\n' :: b1 :=
        spanText_shape (c8src A w ls b1 b2) ('#' :: (("vert").data ++ ' ' :: A)) ('\n' :: b1) ('#' :: joinWords (w :: ls) ++ '\n' :: (b2 ++ ('#' :: ("end").data ++ '\n' :: [])))
          (A.length + 6) (('#' :: (("vert").data ++ ' ' :: A) ++ '\n' :: b1).length) (by simp [c8src]) (by first | (simp [c8src, hv4, he3]; omega) | simp [c8src, hv4, he3]) (by first | (simp [c8src, hv4, he3]; omega) | simp [c8src, hv4, he3])
      have hd : (('#' :: (("vert").data ++ ' ' :: A) ++ '\n' :: b1).length) - (A.length + 6) ≠ 2 := (by first | (simp [c8src, hv4, he3]; omega) | simp [c8src, hv4, he3])
      have h := expand_error_open fs (fun _ _ _ => none) paths (c8src A w ls b1 b2)
        ⟨('#' :: (("vert").data ++ ' ' :: A) ++ '\n' :: b1).length + 1 + (joinWords (w :: ls)).length, ('#' :: (("vert").data ++ ' ' :: A) ++ '\n' :: b1).length, A.length + 6, A.length + 6⟩
        .MODULE_VERT [[]] [] [] A none [] (w ++ (": Invalid token.").data)
        ('\n' :: b1) (by simp) hsp hd
      rw [h]
      simp
    have hexp3 : expandTokenF fs (fun _ _ _ => none) paths
        ⟨.TOKEN_END, [], []⟩ (c8src A w ls b1 b2)
        ⟨('#' :: (("vert").data ++ ' ' :: A) ++ '\n' :: (b1 ++ ('#' :: joinWords (w :: ls) ++ '\n' :: b2))).length + 1 + ("end").data.length, ('#' :: (("vert").data ++ ' ' :: A) ++ '\n' :: (b1 ++ ('#' :: joinWords (w :: ls) ++ '\n' :: b2))).length,
          A.length + b1.length + (joinWords (w :: ls)).length + 8, A.length + b1.length + (joinWords (w :: ls)).length + 8⟩ ⟨.MODULE_VERT, [[], '\n' :: b1], [], [], A, none, [(w ++ (": Invalid token.").data)]⟩ = some ⟨.MODULE_NONE, [], [(A, (⟨ar_str_trim ('\n' :: (b1 ++ '\n' :: b2)), .MODULE_VERT⟩ : Module))], [], [], none, [(w ++ (": Invalid token.").data)]⟩ := by
      have hsp : spanText (c8src A w ls b1 b2) (A.length + b1.length + (joinWords (w :: ls)).length + 8) (('#' :: (("vert").data ++ ' ' :: A) ++ '\n' :: (b1 ++ ('#' :: joinWords (w :: ls) ++ '\n' :: b2))).length) = '\n' :: b2 :=
        spanText_shape (c8src A w ls b1 b2) ('#' :: (("vert").data ++ ' ' :: A) ++ '\n' :: (b1 ++ ('#' :: joinWords (w :: ls)))) ('\n' :: b2) ('#' :: ("end").data ++ '\n' :: [])
          (A.length + b1.length + (joinWords (w :: ls)).length + 8) (('#' :: (("vert").data ++ ' ' :: A) ++ '\n' :: (b1 ++ ('#' :: joinWords (w :: ls) ++ '\n' :: b2))).length) (by simp [c8src]) (by first | (simp [c8src, hv4, he3]; omega) | simp [c8src, hv4, he3]) (by first | (simp [c8src, hv4, he3]; omega) | simp [c8src, hv4, he3])
      have hdf : ('#' :: (("vert").data ++ ' ' :: A) ++ '\n' :: (b1 ++ ('#' :: joinWords (w :: ls) ++ '\n' :: b2))).length - (A.length + b1.length + (joinWords (w :: ls)).length + 8) = ('\n' :: b2).length := (by first | (simp [c8src, hv4, he3]; omega) | simp [c8src, hv4, he3])
      have h := expand_end_close fs (fun _ _ _ => none) paths (c8src A w ls b1 b2)
        ⟨('#' :: (("vert").data ++ ' ' :: A) ++ '\n' :: (b1 ++ ('#' :: joinWords (w :: ls) ++ '\n' :: b2))).length + 1 + ("end").data.length, ('#' :: (("vert").data ++ ' ' :: A) ++ '\n' :: (b1 ++ ('#' :: joinWords (w :: ls) ++ '\n' :: b2))).length, A.length + b1.length + (joinWords (w :: ls)).length + 8, A.length + b1.length + (joinWords (w :: ls)).length + 8⟩
        .MODULE_VERT [[], '\n' :: b1] [] [] A none [(w ++ (": Invalid token.").data)]
        ('\n' :: b2) (by simp) hsp hdf rfl
      rw [h]
      have h2 : ¬ (('\n' :: b2).length = 2) := by
        first | (simp; omega) | simp
      simp [h2, hb2len, ar_str_list_join]
    show parse fs ((c8src A w ls b1 b2).length + 1) (c8src A w ls b1 b2) paths parser_init = some ⟨.MODULE_NONE, [], [(A, (⟨ar_str_trim ('\n' :: (b1 ++ '\n' :: b2)), .MODULE_VERT⟩ : Module))], [], [], none, [(w ++ (": Invalid token.").data)]⟩
    unfold parse
    rw [parseLoop_dir fs paths (c8src A w ls b1 b2) [] (("vert").data ++ ' ' :: A) (b1 ++ ('#' :: joinWords (w :: ls) ++ '\n' :: (b2 ++ ('#' :: ("end").data ++ '\n' :: []))))
      [("vert").data, A] ⟨.TOKEN_VERT, [], [A]⟩ parser_init ⟨.MODULE_VERT, [[]], [], [], A, none, []⟩ ⟨.MODULE_VERT, [[]], [], [], A, none, []⟩
      ((c8src A w ls b1 b2).length) 0 0 0 0 (A.length + 7) 0 (A.length + 6)
      (by simp [c8src])
      (by rw [← hjw1]; exact joinWords_no_nl _ hws1)
      (by
        have := split_statement_words (c8src A w ls b1 b2) (['#'] : List Char) (b1 ++ ('#' :: joinWords (w :: ls) ++ '\n' :: (b2 ++ ('#' :: ("end").data ++ '\n' :: []))))
          [("vert").data, A] (by simp [c8src, hjw1]) (by simp) hws1
        simpa [hjw1] using this)
      rfl (by simp) hexp1 (by first | (simp [c8src, hv4, he3]; omega) | simp [c8src, hv4, he3]) (by first | (simp [c8src, hv4, he3]; omega) | simp [c8src, hv4, he3]) (by first | (simp [c8src, hv4, he3]; omega) | simp [c8src, hv4, he3]) (by first | (simp [c8src, hv4, he3]; omega) | simp [c8src, hv4, he3]) (by simp)]
    rw [parseLoop_run_plain2 fs paths b1 (c8src A w ls b1 b2) ('#' :: (("vert").data ++ ' ' :: A) ++ ['\n']) ('#' :: joinWords (w :: ls) ++ '\n' :: (b2 ++ ('#' :: ("end").data ++ '\n' :: [])))
      ((c8src A w ls b1 b2).length) ((c8src A w ls b1 b2).length - b1.length) 0 (A.length + 6) 0 (A.length + 7) (A.length + b1.length + 7) ⟨.MODULE_VERT, [[]], [], [], A, none, []⟩
      (by simp [c8src]) hb1 (by first | (simp [c8src, hv4, he3]; omega) | simp [c8src, hv4, he3]) (by first | (simp [c8src, hv4, he3]; omega) | simp [c8src, hv4, he3]) (by first | (simp [c8src, hv4, he3]; omega) | simp [c8src, hv4, he3])]
    rw [show (c8src A w ls b1 b2).length - b1.length = ((c8src A w ls b1 b2).length - b1.length - 1) + 1 from (by first | (simp [c8src, hv4, he3]; omega) | simp [c8src, hv4, he3])]
    rw [parseLoop_dir fs paths (c8src A w ls b1 b2) ('#' :: (("vert").data ++ ' ' :: A) ++ '\n' :: b1) (joinWords (w :: ls)) (b2 ++ ('#' :: ("end").data ++ '\n' :: []))
      (w :: ls) ⟨.TOKEN_ERROR, w ++ (": Invalid token.").data, []⟩ ⟨.MODULE_VERT, [[]], [], [], A, none, []⟩ ⟨.MODULE_VERT, [[], '\n' :: b1], [], [], A, none, [(w ++ (": Invalid token.").data)]⟩ ⟨.MODULE_VERT, [[], '\n' :: b1], [], [], A, none, [(w ++ (": Invalid token.").data)]⟩
      ((c8src A w ls b1 b2).length - b1.length - 1) 0 (A.length + 6) 0 (A.length + b1.length + 7) (A.length + b1.length + (joinWords (w :: ls)).length + 9) (A.length + b1.length + 7) (A.length + b1.length + (joinWords (w :: ls)).length + 8)
      (by simp [c8src])
      (joinWords_no_nl (w :: ls) hwsline)
      (by
        have := split_statement_words (c8src A w ls b1 b2) (('#' :: (("vert").data ++ ' ' :: A) ++ '\n' :: b1) ++ ['#']) (b2 ++ ('#' :: ("end").data ++ '\n' :: []))
          (w :: ls) (by simp [c8src]) (by simp) hwsline
        simpa using this)
      (by simp [tokenize_statement_list, herr]) (by simp) hexp2 (by first | (simp [c8src, hv4, he3]; omega) | simp [c8src, hv4, he3]) (by first | (simp [c8src, hv4, he3]; omega) | simp [c8src, hv4, he3]) (by first | (simp [c8src, hv4, he3]; omega) | simp [c8src, hv4, he3]) (by first | (simp [c8src, hv4, he3]; omega) | simp [c8src, hv4, he3]) (by simp)]
    rw [parseLoop_run_plain2 fs paths b2 (c8src A w ls b1 b2) ('#' :: (("vert").data ++ ' ' :: A) ++ '\n' :: (b1 ++ ('#' :: joinWords (w :: ls) ++ ['\n']))) ('#' :: ("end").data ++ '\n' :: [])
      ((c8src A w ls b1 b2).length - b1.length - 1) ((c8src A w ls b1 b2).length - b1.length - 1 - b2.length)
      (A.length + b1.length + 7) (A.length + b1.length + (joinWords (w :: ls)).length + 8) (A.length + 6) (A.length + b1.length + (joinWords (w :: ls)).length + 9) (A.length + b1.length + (joinWords (w :: ls)).length + b2.length + 9) ⟨.MODULE_VERT, [[], '\n' :: b1], [], [], A, none, [(w ++ (": Invalid token.").data)]⟩
      (by simp [c8src]) hb2 (by first | (simp [c8src, hv4, he3]; omega) | simp [c8src, hv4, he3]) (by first | (simp [c8src, hv4, he3]; omega) | simp [c8src, hv4, he3]) (by first | (simp [c8src, hv4, he3]; omega) | simp [c8src, hv4, he3])]
    rw [show (c8src A w ls b1 b2).length - b1.length - 1 - b2.length =
      ((c8src A w ls b1 b2).length - b1.length - b2.length - 2) + 1 from (by first | (simp [c8src, hv4, he3]; omega) | simp [c8src, hv4, he3])]
    rw [parseLoop_dir fs paths (c8src A w ls b1 b2) ('#' :: (("vert").data ++ ' ' :: A) ++ '\n' :: (b1 ++ ('#' :: joinWords (w :: ls) ++ '\n' :: b2))) ("end").data []
      [("end").data] ⟨.TOKEN_END, [], []⟩ ⟨.MODULE_VERT, [[], '\n' :: b1], [], [], A, none, [(w ++ (": Invalid token.").data)]⟩ ⟨.MODULE_NONE, [], [(A, (⟨ar_str_trim ('\n' :: (b1 ++ '\n' :: b2)), .MODULE_VERT⟩ : Module))], [], [], none, [(w ++ (": Invalid token.").data)]⟩ ⟨.MODULE_NONE, [], [(A, (⟨ar_str_trim ('\n' :: (b1 ++ '\n' :: b2)), .MODULE_VERT⟩ : Module))], [], [], none, [(w ++ (": Invalid token.").data)]⟩
      ((c8src A w ls b1 b2).length - b1.length - b2.length - 2) (A.length + b1.length + 7) (A.length + b1.length + (joinWords (w :: ls)).length + 8) (A.length + 6)
      (A.length + b1.length + (joinWords (w :: ls)).length + b2.length + 9) ((c8src A w ls b1 b2).length) (A.length + b1.length + (joinWords (w :: ls)).length + b2.length + 9) ((c8src A w ls b1 b2).length - 1)
      (by simp [c8src])
      (by rw [← hjwE]; exact joinWords_no_nl _ hwsE)
      (by
        have := split_statement_words (c8src A w ls b1 b2)
          (('#' :: (("vert").data ++ ' ' :: A) ++ '\n' :: (b1 ++ ('#' :: joinWords (w :: ls) ++ ['\n']))) ++ (b2 ++ ['#'])) []
          [("end").data] (by simp [c8src, hjwE]) (by simp) hwsE
        simpa [hjwE] using this)
      rfl (by simp) hexp3 (by first | (simp [c8src, hv4, he3]; omega) | simp [c8src, hv4, he3]) (by first | (simp [c8src, hv4, he3]; omega) | simp [c8src, hv4, he3]) (by first | (simp [c8src, hv4, he3]; omega) | simp [c8src, hv4, he3]) (by first | (simp [c8src, hv4, he3]; omega) | simp [c8src, hv4, he3]) (by simp)]
    rw [parseLoop_exit2 fs paths (c8src A w ls b1 b2) ((c8src A w ls b1 b2).length - b1.length - b2.length - 2)
      ((c8src A w ls b1 b2).length) (A.length + b1.length + (joinWords (w :: ls)).length + b2.length + 9) ((c8src A w ls b1 b2).length - 1) (A.length + b1.length + (joinWords (w :: ls)).length + 8) ⟨.MODULE_NONE, [], [(A, (⟨ar_str_trim ('\n' :: (b1 ++ '\n' :: b2)), .MODULE_VERT⟩ : Module))], [], [], none, [(w ++ (": Invalid token.").data)]⟩ _ (by omega) rfl]
    rfl

/-- Witness for `c8_glsl_verbatim_error_dropped`: `#version 450` inside a
vert block is preserved; `#foobar` reports the diagnostic. -/
theorem c8_witness :
    (∃ x y, parse emptyFs
        ((c8src ("a").data ("version").data [("450").data]
          ("X\n").data ("Y\n").data).length + 1)
        (c8src ("a").data ("version").data [("450").data]
          ("X\n").data ("Y\n").data) [] parser_init =
      some ⟨.MODULE_NONE, [],
        [(("a").data,
          (⟨x ++ ('#' :: joinWords (("version").data :: [("450").data])) ++ y,
          .MODULE_VERT⟩ : Module))],
        [], [], none, []⟩) ∧
    parse emptyFs
        ((c8src ("a").data ("foobar").data []
          ("X\n").data ("Y\n").data).length + 1)
        (c8src ("a").data ("foobar").data []
          ("X\n").data ("Y\n").data) [] parser_init =
      some ⟨.MODULE_NONE, [],
        [(("a").data,
          (⟨ar_str_trim ('\n' :: (("X\n").data ++ '\n' :: ("Y\n").data)),
          .MODULE_VERT⟩ : Module))],
        [], [], none, [("foobar").data ++ (": Invalid token.").data]⟩ :=
  ⟨c8_glsl_verbatim_error_dropped.1 emptyFs [] ("a").data ("version").data
      [("450").data] ("X\n").data ("Y\n").data ⟨by decide, by decide⟩
      ⟨by decide, by decide⟩
      (by intro x hx; simp only [List.mem_singleton] at hx; subst hx
          exact ⟨by decide, by decide⟩)
      (by decide) (by decide) (by decide)
      (by decide) (by decide),
    c8_glsl_verbatim_error_dropped.2 emptyFs [] ("a").data ("foobar").data
      [] ("X\n").data ("Y\n").data ⟨by decide, by decide⟩
      ⟨by decide, by decide⟩
      (by intro x hx; simp at hx)
      (by decide) (by decide) (by decide)
      (by decide) (by decide)⟩

end ShaderTool